import Mathlib

/-!
Verification development for the cyberattack-visualization repository.

Part A embeds the packet-capture decoder (scripts/pcap_parser.js and the
parser half of scripts/engine.js, which are the same code) together with the
bit-field helpers of scripts/utils.js.  Part B embeds the particle simulator
of the latest engine iteration (the Quadtree spatial index, loadPcap,
restart and simulationStep).

Modelling conventions:
- JavaScript numbers that hold byte/word values are modelled as Nat;
  signed 32-bit reads are modelled as Int; simulation coordinates are
  modelled as rational numbers.
- JavaScript exceptions (RangeError from DataView reads past the end of a
  buffer, TypeError from member access on undefined) are modelled with
  Except JsError.
- ArrayBuffer.slice / Uint8Array.slice clamp their range to the buffer end;
  this is modelled with List.drop / List.take, which clamp the same way.
- Uint8Array indexing out of range yields undefined in JavaScript; every
  such read in this code flows into bitwise arithmetic or a numeric switch,
  where undefined behaves as 0 (ToInt32 of NaN), so it is modelled as
  List.getD with default 0.
-/

/-! ## scripts/utils.js -/

/-- The mask-building loop shared by getFirstNBits and getLastNBits:
n iterations of r = r*2 + 1 starting from 0 produce a block of n one bits. -/
def onesMask : Nat → Nat
  | 0 => 0
  | n + 1 => onesMask n * 2 + 1

/-- utils.js getFirstNBits: the n most significant bits of a bitLen-bit
value, shifted down to a plain integer. -/
def getFirstNBits (value n : Nat) (bitLen : Nat := 8) : Nat :=
  let r := onesMask n
  let shiftBits := bitLen - n
  let r := r <<< shiftBits
  (value &&& r) >>> shiftBits

/-- utils.js getLastNBits: the n least significant bits. -/
def getLastNBits (value n : Nat) : Nat :=
  value &&& onesMask n

/-- utils.js getFlagBit: whether bit idx (LSB = bit 0) of value is set. -/
def getFlagBit (value idx : Nat) : Bool :=
  let r := 1 <<< idx
  (r &&& value) == r

/-! ## Byte-level reads (DataView semantics) -/

/-- The JavaScript exceptions this code can raise: RangeError from a
DataView read past the buffer end, TypeError from member access on
undefined. -/
inductive JsError where
  | rangeError
  | typeError
deriving DecidableEq, Repr

/-- Single byte read, Uint8Array style: out of range gives undefined,
which behaves as 0 in all arithmetic this code performs on it. -/
def byteAt (bs : List Nat) (i : Nat) : Nat := bs.getD i 0

/-- DataView.getUint16(off, littleEndian): RangeError unless off+2 bytes
are available. -/
def readU16 (le : Bool) (bs : List Nat) (off : Nat) : Except JsError Nat :=
  if off + 2 ≤ bs.length then
    let b0 := byteAt bs off
    let b1 := byteAt bs (off + 1)
    .ok (if le then b1 * 256 + b0 else b0 * 256 + b1)
  else
    .error .rangeError

/-- DataView.getUint32(off, littleEndian): RangeError unless off+4 bytes
are available. -/
def readU32 (le : Bool) (bs : List Nat) (off : Nat) : Except JsError Nat :=
  if off + 4 ≤ bs.length then
    let b0 := byteAt bs off
    let b1 := byteAt bs (off + 1)
    let b2 := byteAt bs (off + 2)
    let b3 := byteAt bs (off + 3)
    .ok (if le then ((b3 * 256 + b2) * 256 + b1) * 256 + b0
         else ((b0 * 256 + b1) * 256 + b2) * 256 + b3)
  else
    .error .rangeError

/-- Reinterpret an unsigned 32-bit value as a signed one. -/
def toI32 (u : Nat) : Int :=
  if u < 2 ^ 31 then (u : Int) else (u : Int) - 2 ^ 32

/-- DataView.getInt32(off, littleEndian). -/
def readI32 (le : Bool) (bs : List Nat) (off : Nat) : Except JsError Int :=
  (readU32 le bs off).map toI32

/-- ArrayBuffer.slice(a, b) / Uint8Array.slice(a, b): the range is clamped
to the buffer, never a failure. -/
def sliceBytes (bs : List Nat) (a b : Nat) : List Nat :=
  (bs.drop a).take (b - a)

/-- Slice from a to the end of the buffer. -/
def sliceFrom (bs : List Nat) (a : Nat) : List Nat :=
  bs.drop a

/-! ## Decoded structures (pcap parser output) -/

/-- TCP segment as produced by parseProtocolDatagram (the type tag string
is constant and omitted). -/
structure TcpPdu where
  sourcePort : Nat
  destPort : Nat
  sequenceNumber : Nat
  ACKNumber : Nat
  dataOffset : Nat
  reserved : Nat
  CWR : Bool
  ECE : Bool
  URG : Bool
  ACK : Bool
  PSH : Bool
  RST : Bool
  SYN : Bool
  FIN : Bool
  window : Nat
  checksum : Nat
  urgentPointer : Nat
  options : List Nat
  tcpData : List Nat
deriving DecidableEq, Repr

/-- IPv4 packet as produced by parseIPv4Payload (the dotted-string rendering
of the addresses is derived data and omitted; datagram is undefined for a
non-TCP protocol byte). -/
structure IpPdu where
  version : Nat
  headerLen : Nat
  differentiatedServicesCodepoint : Nat
  ecn : Nat
  ipLen : Nat
  ipId : Nat
  dontFragment : Bool
  moreFragments : Bool
  fragmentOffset : Nat
  ttl : Nat
  protocol : Nat
  headerChecksum : Nat
  sourceIP : List Nat
  destIP : List Nat
  options : List Nat
  datagram : Option TcpPdu
deriving DecidableEq, Repr

/-- Ethernet frame as produced by parseEthernetFrame (MAC addresses kept as
raw byte lists; payload is undefined for EtherTypes other than IPv4). -/
structure EthFrame where
  macDest : List Nat
  macSrc : List Nat
  etherType : Nat
  payload : Option IpPdu
deriving DecidableEq, Repr

/-- Per-record header of the capture container. -/
structure RecordHeader where
  tsSec : Nat
  tsUsec : Nat
  inclLen : Nat
  origLen : Nat
deriving DecidableEq, Repr

/-- One record: header plus the classified packet (undefined when the
link-layer type is not Ethernet). -/
structure PRecord where
  header : RecordHeader
  packet : Option EthFrame
deriving DecidableEq, Repr

/-- Global capture header. -/
structure GlobalHeader where
  magicNumber : Nat
  versionMajor : Nat
  versionMinor : Nat
  thisZone : Int
  sigfigs : Nat
  snapLen : Nat
  network : Nat
deriving DecidableEq, Repr

/-- Whole decoded capture file. -/
structure PcapFile where
  globalHeader : GlobalHeader
  packets : List PRecord
deriving DecidableEq, Repr

/-! ## The parser (pcap_parser.js half of scripts/engine.js) -/

/-- IPProtocolType.TCP -/
def tcpProtocolNumber : Nat := 6

/-- EthernetProtocolType.IPv4 -/
def ipv4EtherType : Nat := 0x0800

/-- EthernetProtocolType.IPv6 -/
def ipv6EtherType : Nat := 0x86dd

/-- HeaderLinkType.ETHERNET -/
def ethernetLinkType : Nat := 1

/-- parseProtocolDatagram: TCP parse of the transport bytes; a non-TCP
protocol byte falls through the switch and yields undefined. -/
def parseProtocolDatagram (data : List Nat) (protocol : Nat) :
    Except JsError (Option TcpPdu) :=
  if protocol == tcpProtocolNumber then do
    let sourcePort ← readU16 false (sliceBytes data 0 2) 0
    let destPort ← readU16 false (sliceBytes data 2 4) 0
    let sequenceNumber ← readU32 false (sliceBytes data 4 8) 0
    let ackNumber ← readU32 false (sliceBytes data 8 12) 0
    let offsetReserved := byteAt data 12
    let dataOffset := getFirstNBits offsetReserved 4 * 4
    let reserved := getLastNBits offsetReserved 4
    let flags := byteAt data 13
    let fin := getFlagBit flags 0
    let syn := getFlagBit flags 1
    let rst := getFlagBit flags 2
    let psh := getFlagBit flags 3
    let ack := getFlagBit flags 4
    let urg := getFlagBit flags 5
    let ece := getFlagBit flags 6
    let cwr := getFlagBit flags 7
    let window ← readU16 false (sliceBytes data 14 16) 0
    let checksum ← readU16 false (sliceBytes data 16 18) 0
    let urgentPointer ← readU16 false (sliceBytes data 18 20) 0
    let options := sliceBytes data 20 dataOffset
    let tcpData := sliceFrom data dataOffset
    pure (some {
      sourcePort := sourcePort, destPort := destPort,
      sequenceNumber := sequenceNumber, ACKNumber := ackNumber,
      dataOffset := dataOffset, reserved := reserved,
      CWR := cwr, ECE := ece, URG := urg, ACK := ack,
      PSH := psh, RST := rst, SYN := syn, FIN := fin,
      window := window, checksum := checksum,
      urgentPointer := urgentPointer,
      options := options, tcpData := tcpData })
  else
    pure none

/-- parseIPv4Payload: receives the whole Ethernet frame bytes and reads the
IPv4 header starting at offset 14. -/
def parseIPv4Payload (data : List Nat) : Except JsError IpPdu := do
  let versionIHL := byteAt data 14
  let version := getFirstNBits versionIHL 4
  let headerLen := getLastNBits versionIHL 4 * 4
  let typeOfService := byteAt data 15
  let dscp := getFirstNBits typeOfService 6
  let ecn := getLastNBits typeOfService 2
  let ipLen ← readU16 false (sliceBytes data 16 18) 0
  let ipId ← readU16 false (sliceBytes data 18 20) 0
  let flagsFragmentOffset ← readU16 false (sliceBytes data 20 22) 0
  let flags := getFirstNBits flagsFragmentOffset 3 16
  let dontFragmentFlag := flags == 2 || flags == 3
  let moreFragmentsFlag := flags == 1 || flags == 3
  let fragmentOffset := getLastNBits flagsFragmentOffset 13
  let ttl := byteAt data 22
  let protocol := byteAt data 23
  let headerChecksum ← readU16 false (sliceBytes data 24 26) 0
  let sourceIp := sliceBytes data 26 30
  let destIp := sliceBytes data 30 34
  let lastIdx := 14 + headerLen
  let options := sliceBytes data 34 lastIdx
  let datagram ← parseProtocolDatagram (sliceFrom data lastIdx) protocol
  pure {
    version := version, headerLen := headerLen,
    differentiatedServicesCodepoint := dscp, ecn := ecn,
    ipLen := ipLen, ipId := ipId,
    dontFragment := dontFragmentFlag, moreFragments := moreFragmentsFlag,
    fragmentOffset := fragmentOffset, ttl := ttl, protocol := protocol,
    headerChecksum := headerChecksum,
    sourceIP := sourceIp, destIP := destIp, options := options,
    datagram := datagram }

/-- parseEthernetFrame: MACs, big-endian EtherType, then dispatch; IPv6 and
unknown EtherTypes leave the payload undefined. -/
def parseEthernetFrame (data : List Nat) : Except JsError EthFrame := do
  let macDest := sliceBytes data 0 6
  let macSrc := sliceBytes data 6 12
  let etherType ← readU16 false (sliceBytes data 12 14) 0
  let payload ←
    if etherType == ipv4EtherType then
      (parseIPv4Payload data).map some
    else
      pure (none : Option IpPdu)
  pure { macDest := macDest, macSrc := macSrc, etherType := etherType,
         payload := payload }

/-- parsePcapPacket: only the Ethernet link type is classified; the
IEEE802_11 case and the default case produce undefined. -/
def parsePcapPacket (packet : List Nat) (headerType : Nat) :
    Except JsError (Option EthFrame) :=
  if headerType == ethernetLinkType then
    (parseEthernetFrame packet).map some
  else
    pure none

/-- The record loop of parsePcapFile: while bytes remain, read a 16-byte
record header, slice inclLen payload bytes (clamped to the buffer end, as
ArrayBuffer.slice does), classify, and advance by 16 + inclLen.  The loop
always terminates because byteNum grows by at least 16 per iteration while
the guard needs byteNum < bs.length, so strictly fewer than bs.length + 1
iterations run; the fuel argument (instantiated with bs.length + 1 by
parsePcapFile) therefore never reaches the 0 case on a guard that is still
true, it only makes the recursion structural. -/
def parseRecords (le : Bool) (bs : List Nat) (network : Nat) :
    Nat → Nat → Except JsError (List PRecord)
  | 0, _ => pure []
  | fuel + 1, byteNum =>
    if byteNum < bs.length then do
      let tsSec ← readU32 le bs byteNum
      let tsUsec ← readU32 le bs (byteNum + 4)
      let inclLen ← readU32 le bs (byteNum + 8)
      let origLen ← readU32 le bs (byteNum + 12)
      let packetData := sliceBytes bs (byteNum + 16) (byteNum + 16 + inclLen)
      let pkt ← parsePcapPacket packetData network
      let rest ← parseRecords le bs network fuel (byteNum + 16 + inclLen)
      pure ({ header := { tsSec := tsSec, tsUsec := tsUsec,
                          inclLen := inclLen, origLen := origLen },
              packet := pkt } :: rest)
    else
      pure []

/-- parsePcapFile: read the magic big-endian, decide the byte order of the
whole remaining file from it, read the 24-byte global header, then the
record loop starting at offset 24. -/
def parsePcapFile (bs : List Nat) : Except JsError PcapFile := do
  let magicNumber ← readU32 false bs 0
  let isLittleEndian := magicNumber == 0xd4c3b2a1
  let versionMajor ← readU16 isLittleEndian bs 4
  let versionMinor ← readU16 isLittleEndian bs 6
  let thisZone ← readI32 isLittleEndian bs 8
  let sigfigs ← readU32 isLittleEndian bs 12
  let snapLen ← readU32 isLittleEndian bs 16
  let network ← readU32 isLittleEndian bs 20
  let packets ← parseRecords isLittleEndian bs network (bs.length + 1) 24
  pure { globalHeader := {
           magicNumber := magicNumber,
           versionMajor := versionMajor, versionMinor := versionMinor,
           thisZone := thisZone, sigfigs := sigfigs,
           snapLen := snapLen, network := network },
         packets := packets }

/-! ## Independent byte-order readers (stated from the spec wording, for
comparison with the parser in the byte-order claim) -/

/-- Big-endian 16-bit read at a byte offset, written directly from the
spec description of byte order (most significant byte first). -/
def specBE16 (bs : List Nat) (off : Nat) : Nat :=
  byteAt bs off * 256 + byteAt bs (off + 1)

/-- Little-endian 16-bit read (least significant byte first). -/
def specLE16 (bs : List Nat) (off : Nat) : Nat :=
  byteAt bs (off + 1) * 256 + byteAt bs off

/-- Big-endian 32-bit read. -/
def specBE32 (bs : List Nat) (off : Nat) : Nat :=
  ((byteAt bs off * 256 + byteAt bs (off + 1)) * 256
      + byteAt bs (off + 2)) * 256 + byteAt bs (off + 3)

/-- Little-endian 32-bit read. -/
def specLE32 (bs : List Nat) (off : Nat) : Nat :=
  ((byteAt bs (off + 3) * 256 + byteAt bs (off + 2)) * 256
      + byteAt bs (off + 1)) * 256 + byteAt bs off

/-- Byte-order dispatch over the spec-side 32-bit readers. -/
def specRead32 (le : Bool) (bs : List Nat) (off : Nat) : Nat :=
  if le then specLE32 bs off else specBE32 bs off

/-- Spec-side description of the whole record area: while bytes remain,
each record header contributes its four 32-bit fields (seconds,
microseconds, capturedLength, originalLength) read with the selected byte
order at the running offset, and the next record header starts
16 + capturedLength bytes further.  Written from the spec wording, for
comparison with parseRecords in the byte-order claim; the fuel argument
mirrors the one of parseRecords. -/
def specRecordHeaders (le : Bool) (bs : List Nat) :
    Nat → Nat → List RecordHeader
  | 0, _ => []
  | fuel + 1, byteNum =>
    if byteNum < bs.length then
      { tsSec := specRead32 le bs byteNum,
        tsUsec := specRead32 le bs (byteNum + 4),
        inclLen := specRead32 le bs (byteNum + 8),
        origLen := specRead32 le bs (byteNum + 12) } ::
      specRecordHeaders le bs fuel
        (byteNum + 16 + specRead32 le bs (byteNum + 8))
    else []

/-! ## Concrete capture buffers used by the evaluation theorems -/

/-- Big-endian encoding of a 32-bit value into 4 bytes. -/
def encBE32 (v : Nat) : List Nat :=
  [v / 2 ^ 24 % 256, v / 2 ^ 16 % 256, v / 2 ^ 8 % 256, v % 256]

/-- A 24-byte big-endian global header: canonical magic, version 2.4,
zone 0, sigfigs 0, snaplen 65535, network 1 (Ethernet). -/
def globalHeaderBE : List Nat :=
  [0xa1, 0xb2, 0xc3, 0xd4] ++ [0, 2] ++ [0, 4] ++
  [0, 0, 0, 0] ++ [0, 0, 0, 0] ++ [0, 0, 0xff, 0xff] ++ [0, 0, 0, 1]

/-- A 20-byte TCP segment: ports 8080 and 80, seq 1, ack 0, data offset 5
words, flags byte 0x12 = 0b00010010 (SYN and ACK set), window 65535. -/
def tcpSegBytes : List Nat :=
  [0x1f, 0x90] ++ [0, 80] ++ [0, 0, 0, 1] ++ [0, 0, 0, 0] ++
  [0x50] ++ [0x12] ++ [0xff, 0xff] ++ [0, 0] ++ [0, 0]

/-- A 54-byte Ethernet/IPv4/TCP frame: zero MACs, EtherType 0x0800, a
20-byte IPv4 header with protocol 6, then the TCP segment above. -/
def ethTcpFrameBytes : List Nat :=
  [0, 0, 0, 0, 0, 0] ++ [0, 0, 0, 0, 0, 0] ++ [0x08, 0x00] ++
  ([0x45] ++ [0] ++ [0, 40] ++ [0, 0] ++ [0x40, 0] ++ [64] ++ [6] ++
   [0, 0] ++ [10, 0, 0, 1] ++ [10, 0, 0, 2]) ++
  tcpSegBytes

/-- One capture record with the frame above, sec 0 and the given
microsecond timestamp, declaring the true captured length 54. -/
def recBytes (usec : Nat) : List Nat :=
  [0, 0, 0, 0] ++ encBE32 usec ++ encBE32 54 ++ encBE32 54 ++
  ethTcpFrameBytes

/-- Capture with three Ethernet/IPv4/TCP records at microsecond offsets
0, 1500 and 4000 from the first record. -/
def threeRecordCapture : List Nat :=
  globalHeaderBE ++ recBytes 0 ++ recBytes 1500 ++ recBytes 4000

/-- Capture whose single record header declares capturedLength big, but
only 54 payload bytes remain after the record header. -/
def truncatedCapture (big : Nat) : List Nat :=
  globalHeaderBE ++ ([0, 0, 0, 0] ++ [0, 0, 0, 0] ++ encBE32 big ++
    encBE32 54) ++ ethTcpFrameBytes

/-- A 24-byte little-endian capture: swapped magic, version 2.4, zone 0,
sigfigs 0, snaplen 65535, network 1, and no records. -/
def leHeaderCapture : List Nat :=
  [0xd4, 0xc3, 0xb2, 0xa1] ++ [2, 0] ++ [4, 0] ++
  [0, 0, 0, 0] ++ [0, 0, 0, 0] ++ [0xff, 0xff, 0, 0] ++ [1, 0, 0, 0]

/-- Little-endian encoding of a 32-bit value into 4 bytes. -/
def encLE32 (v : Nat) : List Nat :=
  [v % 256, v / 2 ^ 8 % 256, v / 2 ^ 16 % 256, v / 2 ^ 24 % 256]

/-- Capture with the swapped magic and two little-endian records carrying
the Ethernet/IPv4/TCP frame, timestamps 0s 0us and 1s 500us, both of true
captured length 54. -/
def leTwoRecordCapture : List Nat :=
  leHeaderCapture ++
  (encLE32 0 ++ encLE32 0 ++ encLE32 54 ++ encLE32 54 ++ ethTcpFrameBytes) ++
  (encLE32 1 ++ encLE32 500 ++ encLE32 54 ++ encLE32 54 ++ ethTcpFrameBytes)

/-! ## Particle simulator (latest engine iteration in the repository)

Numeric constants of newFluidParticleEngine. -/

def GRAVITY : ℚ := 0.98

def COLLISION_TOLERANCE : ℚ := 0.0001

def COEFFICIENT_OF_RESTITUTION : ℚ := 0.5

def PARTICLE_MASS : ℚ := 1

def PILLARS_HEIGHT : ℚ := 0.25

def PARTICLE_RADIUS_MULTIPLIER : ℚ := 0.01

/-- A particle: the mesh position, the velocity, the server processing
stamp (none models Infinity, meaning not yet taken in), and the mesh
geometry radius.  The id models JavaScript object identity. -/
structure Particle where
  id : Nat
  x : ℚ
  y : ℚ
  Vx : ℚ
  Vy : ℚ
  startProcessingTime : Option ℚ
  radius : ℚ
deriving DecidableEq, Repr

/-- An axis-aligned rectangle as used by the Quadtree class. -/
structure Rect where
  x : ℚ
  y : ℚ
  width : ℚ
  height : ℚ
deriving DecidableEq, Repr

/-- Quadtree.contains: half-open containment of a particle position in a
boundary rectangle. -/
def rectContainsP (b : Rect) (p : Particle) : Bool :=
  decide (p.x ≥ b.x ∧ p.x < b.x + b.width ∧ p.y ≥ b.y ∧ p.y < b.y + b.height)

/-- Quadtree.particleInRange: textually the same test as contains, against
the query range. -/
def particleInRange (p : Particle) (range : Rect) : Bool :=
  decide (p.x ≥ range.x ∧ p.x < range.x + range.width ∧
          p.y ≥ range.y ∧ p.y < range.y + range.height)

/-- Quadtree.intersect between a node boundary and a query range. -/
def rectIntersect (b range : Rect) : Bool :=
  !(decide (range.x > b.x + b.width) || decide (range.x + range.width < b.x) ||
    decide (range.y > b.y + b.height) || decide (range.y + range.height < b.y))

/-- Quadtree.subdivide quadrant rectangles. -/
def neRect (b : Rect) : Rect :=
  ⟨b.x + b.width * 0.5, b.y + b.height * 0.5, b.width * 0.5, b.height * 0.5⟩

/-- Northwest quadrant. -/
def nwRect (b : Rect) : Rect :=
  ⟨b.x, b.y + b.height * 0.5, b.width * 0.5, b.height * 0.5⟩

/-- Southeast quadrant. -/
def seRect (b : Rect) : Rect :=
  ⟨b.x + b.width * 0.5, b.y, b.width * 0.5, b.height * 0.5⟩

/-- Southwest quadrant. -/
def swRect (b : Rect) : Rect :=
  ⟨b.x, b.y, b.width * 0.5, b.height * 0.5⟩

/-- The Quadtree class: a node is undivided (leaf, children null) or
divided (node, four children). -/
inductive Quadtree where
  | leaf (boundary : Rect) (capacity : Nat) (particles : List Particle)
  | node (boundary : Rect) (capacity : Nat) (particles : List Particle)
      (ne nw se sw : Quadtree)
deriving DecidableEq, Repr

/-- Boundary of the root node. -/
def Quadtree.boundary : Quadtree → Rect
  | .leaf b _ _ => b
  | .node b _ _ _ _ _ _ => b

/-- Quadtree.insert.  Returns the insertion result and the updated tree.
The undivided case inlines the call this.subdivide() followed by the
delegation chain: a fresh child is an empty leaf, so inserting into it is
exactly its containment test followed by a push of the single particle.
The divided case is the short-circuit chain
ne.insert(p) || nw.insert(p) || se.insert(p) || sw.insert(p). -/
def Quadtree.insert : Quadtree → Particle → Bool × Quadtree
  | .leaf b c ps, p =>
    if !rectContainsP b p then (false, .leaf b c ps)
    else if ps.length ≤ c then (true, .leaf b c (ps ++ [p]))
    else if rectContainsP (neRect b) p then
      (true, .node b c ps (.leaf (neRect b) c [p]) (.leaf (nwRect b) c [])
        (.leaf (seRect b) c []) (.leaf (swRect b) c []))
    else if rectContainsP (nwRect b) p then
      (true, .node b c ps (.leaf (neRect b) c []) (.leaf (nwRect b) c [p])
        (.leaf (seRect b) c []) (.leaf (swRect b) c []))
    else if rectContainsP (seRect b) p then
      (true, .node b c ps (.leaf (neRect b) c []) (.leaf (nwRect b) c [])
        (.leaf (seRect b) c [p]) (.leaf (swRect b) c []))
    else if rectContainsP (swRect b) p then
      (true, .node b c ps (.leaf (neRect b) c []) (.leaf (nwRect b) c [])
        (.leaf (seRect b) c []) (.leaf (swRect b) c [p]))
    else
      (false, .node b c ps (.leaf (neRect b) c []) (.leaf (nwRect b) c [])
        (.leaf (seRect b) c []) (.leaf (swRect b) c []))
  | .node b c ps ne nw se sw, p =>
    if !rectContainsP b p then (false, .node b c ps ne nw se sw)
    else if ps.length ≤ c then (true, .node b c (ps ++ [p]) ne nw se sw)
    else
      let r1 := ne.insert p
      if r1.1 then (true, .node b c ps r1.2 nw se sw)
      else
        let r2 := nw.insert p
        if r2.1 then (true, .node b c ps r1.2 r2.2 se sw)
        else
          let r3 := se.insert p
          if r3.1 then (true, .node b c ps r1.2 r2.2 r3.2 sw)
          else
            let r4 := sw.insert p
            (r4.1, .node b c ps r1.2 r2.2 r3.2 r4.2)

/-- Quadtree.query with its found accumulator: prune when the boundary does
not intersect the range, collect in-range particles of this node, then
descend ne, nw, se, sw. -/
def Quadtree.query : Quadtree → Rect → List Particle → List Particle
  | .leaf b _ ps, range, found =>
    if !rectIntersect b range then found
    else found ++ ps.filter (fun p => particleInRange p range)
  | .node b _ ps ne nw se sw, range, found =>
    if !rectIntersect b range then found
    else
      let found := found ++ ps.filter (fun p => particleInRange p range)
      let found := ne.query range found
      let found := nw.query range found
      let found := se.query range found
      sw.query range found

/-- All particles stored anywhere in the tree, in node order. -/
def Quadtree.elems : Quadtree → List Particle
  | .leaf _ _ ps => ps
  | .node _ _ ps ne nw se sw =>
      ps ++ (ne.elems ++ (nw.elems ++ (se.elems ++ sw.elems)))

/-! ### Sources and the simulator state -/

/-- One entry of a spawn queue before sorting, as built in loadPcap. -/
structure SpawnRequest where
  milliseconds : Int
  payload : Option IpPdu
deriving DecidableEq, Repr

/-- One entry of a spawn queue: fire time, payload, fired flag. -/
structure SpawnItem where
  time : Int
  payload : Option IpPdu
  spawned : Bool
deriving DecidableEq, Repr

/-- A particle source. -/
structure PSource where
  x : ℚ
  y : ℚ
  spawnQueue : List SpawnItem
deriving DecidableEq, Repr

/-- Stable insertion of an element into a list sorted by le: the element
goes in front of the first entry it compares le to, so entries that
compare equal keep their original relative order. -/
def sortedInsert (le : SpawnItem → SpawnItem → Bool) (x : SpawnItem) :
    List SpawnItem → List SpawnItem
  | [] => [x]
  | y :: ys => if le x y then x :: y :: ys else y :: sortedInsert le x ys

/-- Stable insertion sort by le.  Array.prototype.sort with the comparator
(a, b) => a.time - b.time is a stable ascending sort by time, and any two
stable sorts under the same total preorder produce the same list. -/
def stableSortByTime (l : List SpawnItem) : List SpawnItem :=
  l.foldr (sortedInsert (fun a b => decide (a.time ≤ b.time))) []

/-- The particleSource constructor: map the requests to unfired items and
sort ascending by time. -/
def particleSource (x y : ℚ) (spawnQueue : List SpawnRequest) : PSource :=
  { x := x, y := y,
    spawnQueue :=
      stableSortByTime (spawnQueue.map (fun item =>
        { time := item.milliseconds, payload := item.payload,
          spawned := false })) }

/-- The parameters record of the engine (serverSpeed: none models the
default Infinity). -/
structure Params where
  particleRadius : ℚ
  serverCapacity : ℚ
  maxParticles : Nat
  serverSpeed : Option ℚ
deriving DecidableEq, Repr

/-- Default parameters of newFluidParticleEngine. -/
def defaultParams : Params :=
  { particleRadius := PARTICLE_RADIUS_MULTIPLIER, serverCapacity := 0.5,
    maxParticles := 100, serverSpeed := none }

/-- A quadratic Bezier curve by its three control points. -/
structure Bezier where
  p0x : ℚ
  p0y : ℚ
  p1x : ℚ
  p1y : ℚ
  p2x : ℚ
  p2y : ℚ
deriving DecidableEq, Repr

/-- THREE.QuadraticBezierCurve.getPoint. -/
def bezierPoint (c : Bezier) (t : ℚ) : ℚ × ℚ :=
  ((1 - t) ^ 2 * c.p0x + 2 * (1 - t) * t * c.p1x + t ^ 2 * c.p2x,
   (1 - t) ^ 2 * c.p0y + 2 * (1 - t) * t * c.p1y + t ^ 2 * c.p2y)

/-- The world rectangle supplied by the rendering collaborator (the
orthographic camera extents). -/
structure Bounds where
  left : ℚ
  right : ℚ
  top : ℚ
  bottom : ℚ
deriving DecidableEq, Repr

/-- Mutable engine state.  The graveyard holds particles removed during
the current tick: their objects stay reachable through the quadtree for
the rest of the tick, exactly as the spliced-out objects do in
JavaScript.  The jitter list is the explicit stream of Math.random draws
used for spawn position jitter. -/
structure FluidState where
  particles : List Particle
  graveyard : List Particle
  particleSources : List PSource
  params : Params
  curve1 : Bezier
  curve2 : Bezier
  simulationTime : ℚ
  nextId : Nat
  jitter : List ℚ
deriving DecidableEq, Repr

/-- refreshServerCapacity: the two pillar curves derived from the camera
extents and the server capacity. -/
def refreshServerCapacity (wb : Bounds) (serverCapacity : ℚ) :
    Bezier × Bezier :=
  let x0 := wb.left
  let x1 := (wb.left + wb.right - serverCapacity) * 0.5
  let y0 := (wb.top + wb.bottom) * 0.5
  let y1 := wb.bottom + PILLARS_HEIGHT
  let xx0 := wb.right
  let xx1 := (wb.left + wb.right + serverCapacity) * 0.5
  (⟨x0, y0, x0, y1, x1, y1⟩, ⟨xx0, y0, xx0, y1, xx1, y1⟩)

/-- restart: drop all live particles, reset the clock, reset every spawned
flag, refresh the server representation (whose rendering meshes are out of
scope here beyond the curve geometry). -/
def restart (wb : Bounds) (s : FluidState) : FluidState :=
  let curves := refreshServerCapacity wb s.params.serverCapacity
  { s with
    particles := [],
    simulationTime := 0,
    particleSources := s.particleSources.map (fun src =>
      { src with spawnQueue := src.spawnQueue.map (fun item =>
          { item with spawned := false }) }),
    curve1 := curves.1,
    curve2 := curves.2 }

/-- filterClassified: the packets.filter of loadPcap.  Reading the payload
member of an unclassified (undefined) packet raises TypeError. -/
def filterClassified : List PRecord → Except JsError (List PRecord)
  | [] => .ok []
  | r :: rs =>
    match r.packet with
    | none => .error .typeError
    | some fr => do
      let rest ← filterClassified rs
      pure (if fr.payload.isSome then r :: rest else rest)

/-- loadPcap: keep the records with a classified transport payload, take
the first one as the time base, convert each timestamp with
tsSec * 1000 + tsUsec minus the base, and build the single source at the
origin.  Indexing packets[0] of an empty filtered list gives undefined and
the subsequent header access raises TypeError. -/
def loadPcap (f : PcapFile) : Except JsError PSource := do
  let packets ← filterClassified f.packets
  match packets with
  | [] => .error .typeError
  | first :: _ =>
    let baseMilliseconds : Int :=
      first.header.tsSec * 1000 + first.header.tsUsec
    let spawnQueue := packets.map (fun el =>
      { milliseconds :=
          (el.header.tsSec * 1000 + el.header.tsUsec : Int) -
            baseMilliseconds,
        payload := el.packet.bind (fun fr => fr.payload) : SpawnRequest })
    pure (particleSource 0 0 spawnQueue)

/-- The state-level effect of loadPcap: this.particleSources = [] followed
by addSource of the one new source. -/
def loadPcapState (s : FluidState) (f : PcapFile) :
    Except JsError FluidState :=
  (loadPcap f).map (fun src => { s with particleSources := [src] })

/-- spawnParticle: a new particle at the source position plus jitter of
Math.random() * 0.01 on each axis, zero velocity, pushed at the end of the
live list. -/
def spawnParticle (src : PSource) (s : FluidState) : FluidState :=
  let j1 := s.jitter.headD 0
  let j2 := (s.jitter.drop 1).headD 0
  let posx := src.x + j1 * 0.01
  let posy := src.y + j2 * 0.01
  let p : Particle :=
    { id := s.nextId, x := posx, y := posy, Vx := 0, Vy := 0,
      startProcessingTime := none, radius := PARTICLE_RADIUS_MULTIPLIER }
  { s with particles := s.particles ++ [p], nextId := s.nextId + 1,
           jitter := s.jitter.drop 2 }

/-- The inner spawn loop of simulationStep over one spawn queue: fire every
unfired entry whose time has come, flipping only its spawned flag. -/
def spawnQueuePass (src : PSource) (s : FluidState) :
    FluidState × List SpawnItem :=
  src.spawnQueue.foldl
    (fun acc item =>
      if !item.spawned && decide ((item.time : ℚ) ≤ acc.1.simulationTime) then
        (spawnParticle src acc.1, acc.2 ++ [{ item with spawned := true }])
      else
        (acc.1, acc.2 ++ [item]))
    (s, [])

/-- The outer spawn loop of simulationStep over all sources. -/
def spawnPass (s : FluidState) : FluidState :=
  let folded := s.particleSources.foldl
    (fun acc src =>
      let r := spawnQueuePass src acc.1
      (r.1, acc.2 ++ [{ src with spawnQueue := r.2 }]))
    (s, [])
  { folded.1 with particleSources := folded.2 }

/-- buildQuadTree: fresh tree over the camera rectangle with capacity 4,
inserting every live particle at its position at build time. -/
def buildQuadTree (wb : Bounds) (ps : List Particle) : Quadtree :=
  let boundary : Rect :=
    ⟨wb.left, wb.bottom, wb.right - wb.left, wb.top - wb.bottom⟩
  ps.foldl (fun qt p => (qt.insert p).2) (.leaf boundary 4 [])

/-- Look a particle object up by identity: it is live, or removed earlier
in the current tick. -/
def lookupParticle (s : FluidState) (pid : Nat) : Option Particle :=
  (s.particles ++ s.graveyard).find? (fun q => q.id == pid)

/-- Quadtree.query as used mid-tick: the tree shape and the stored
references are from build time, but particleInRange reads the live
position of each referenced particle.  Collects ids. -/
def Quadtree.queryLive : Quadtree → Rect → (Nat → Option Particle) →
    List Nat → List Nat
  | .leaf b _ ps, range, live, found =>
    if !rectIntersect b range then found
    else found ++ (ps.filter (fun q =>
      particleInRange ((live q.id).getD q) range)).map (fun q => q.id)
  | .node b _ ps ne nw se sw, range, live, found =>
    if !rectIntersect b range then found
    else
      let found := found ++ (ps.filter (fun q =>
        particleInRange ((live q.id).getD q) range)).map (fun q => q.id)
      let found := ne.queryLive range live found
      let found := nw.queryLive range live found
      let found := se.queryLive range live found
      sw.queryLive range live found

/-- The collision outcome enumeration of the engine. -/
inductive CollisionType where
  | NO_COLLISION
  | COLLISION
  | INTERPENETRATING
deriving DecidableEq, Repr

/-- particle.checkCollision.  The source compares s = dist.length() - r and
vrn = relativeVelocity.dot(normal) where normal = dist.normalize().  The
square root is eliminated by sign-preserving rewrites over d2 = dist
squared: vrn < 0 iff relativeVelocity.dot(dist) < 0 and d2 > 0 (normalize
leaves the zero vector at zero, making vrn 0 there); abs s ≤ tol iff
r - tol ≤ length and length ≤ r + tol, each compared through squares since
length ≥ 0; s < -tol iff length < r - tol. -/
def checkCollision (p q : Particle) : CollisionType :=
  let dx := p.x - q.x
  let dy := p.y - q.y
  let r := p.radius + q.radius
  let d2 := dx ^ 2 + dy ^ 2
  let rvd := (p.Vx - q.Vx) * dx + (p.Vy - q.Vy) * dy
  let vrnNeg := decide (rvd < 0) && decide (d2 ≠ 0)
  let absLe :=
    (decide (r - COLLISION_TOLERANCE ≤ 0) ||
     decide ((r - COLLISION_TOLERANCE) ^ 2 ≤ d2)) &&
    (decide (0 ≤ r + COLLISION_TOLERANCE) &&
     decide (d2 ≤ (r + COLLISION_TOLERANCE) ^ 2))
  if absLe && vrnNeg then .COLLISION
  else if decide (0 < r - COLLISION_TOLERANCE) &&
          decide (d2 < (r - COLLISION_TOLERANCE) ^ 2) then .INTERPENETRATING
  else .NO_COLLISION

/-- The impulse velocity of checkParticleCollision.  At the point of use,
collResult.normal is the vector dist.normalize() scaled in place by
multiplyScalar(r1 + r2) (THREE mutates the vector), so with
R = r1 + r2, M = PARTICLE_MASS, e = COEFFICIENT_OF_RESTITUTION:
  normalRelVel = R (rv . d) / length, n2 = R squared,
  j = -(1 + e) normalRelVel / (n2 * 2 * M),
  impulseVelocity = normal * (j / M) = -(1 + e) (rv . d) / (2 M^2 d2) * d,
in which the square root cancels and everything is rational.  The division
is by 2 M^2 d2; the COLLISION branch guarantees d2 is nonzero. -/
def impulseVelocity (p q : Particle) : ℚ × ℚ :=
  let dx := p.x - q.x
  let dy := p.y - q.y
  let d2 := dx ^ 2 + dy ^ 2
  let rvd := (p.Vx - q.Vx) * dx + (p.Vy - q.Vy) * dy
  let coeff := -(1 + COEFFICIENT_OF_RESTITUTION) * rvd /
    (2 * PARTICLE_MASS ^ 2 * d2)
  (coeff * dx, coeff * dy)

/-- The velocity update applied on a detected collision: the current
particle gains the impulse velocity, the other particle loses it. -/
def applyImpulse (p q : Particle) : Particle × Particle :=
  let iv := impulseVelocity p q
  ({ p with Vx := p.Vx + iv.1, Vy := p.Vy + iv.2 },
   { q with Vx := q.Vx - iv.1, Vy := q.Vy - iv.2 })

/-- Update the particle object with this identity, wherever it lives. -/
def updateById (s : FluidState) (pid : Nat) (f : Particle → Particle) :
    FluidState :=
  { s with
    particles := s.particles.map (fun q => if q.id == pid then f q else q),
    graveyard := s.graveyard.map (fun q => if q.id == pid then f q else q) }

/-- Update the live particle at index j. -/
def modifyAt (s : FluidState) (j : Nat) (f : Particle → Particle) :
    FluidState :=
  match s.particles.get? j with
  | none => s
  | some p => { s with particles := s.particles.set j (f p) }

/-- The loop body of checkParticleCollision over the nearby candidates:
skip when the current particle is at rest or the candidate is itself,
otherwise apply the impulse response on a detected collision to both
objects. -/
def collideWithNearby (s : FluidState) (j : Nat) (nearby : List Nat) :
    FluidState :=
  nearby.foldl
    (fun st qid =>
      match st.particles.get? j with
      | none => st
      | some cur =>
        if !(decide (cur.Vx ≠ 0) || decide (cur.Vy ≠ 0)) || cur.id == qid
        then st
        else
          match lookupParticle st qid with
          | none => st
          | some q =>
            if checkCollision cur q = .COLLISION then
              let pr := applyImpulse cur q
              let st := { st with particles := st.particles.set j pr.1 }
              updateById st qid (fun _ => pr.2)
            else st)
    s

/-- checkParticleCollision: query the tick quadtree for a square
neighborhood of four radii around the current particle, then run the
response loop. -/
def checkParticleCollision (qt : Quadtree) (s : FluidState) (j : Nat) :
    FluidState :=
  match s.particles.get? j with
  | none => s
  | some p =>
    let searchRadius := p.radius * 4
    let range : Rect :=
      ⟨p.x - searchRadius, p.y - searchRadius,
       searchRadius * 2, searchRadius * 2⟩
    let nearby := qt.queryLive range (lookupParticle s) []
    collideWithNearby s j nearby

/-- checkWallCollisions: clamp the position at each limit and zero the
corresponding velocity component; the four tests run in order on the
updated particle. -/
def checkWallCollisions (wb : Bounds) (particleRadius : ℚ)
    (p : Particle) : Particle :=
  let leftLimit := wb.left + particleRadius * 0.5
  let rightLimit := wb.right - particleRadius * 0.5
  let topLimit := wb.top - particleRadius * 0.5
  let bottomLimit := wb.bottom + particleRadius * 0.5
  let p := if p.x ≥ rightLimit then { p with x := rightLimit, Vx := 0 } else p
  let p := if p.x ≤ leftLimit then { p with x := leftLimit, Vx := 0 } else p
  let p := if p.y ≤ bottomLimit then { p with y := bottomLimit, Vy := 0 } else p
  let p := if p.y ≥ topLimit then { p with y := topLimit, Vy := 0 } else p
  p

/-- collisionParticleSegment: circle versus segment through the quadratic
a t^2 + b t + c.  The source computes d = sqrt(disc) and
t0 = (-b - d) / 2a, t1 = (-b + d) / 2a, then reports NO_COLLISION when
disc < 0 or t1 < 0 or t0 > 1.  For a > 0 and disc ≥ 0 the root tests are
equivalent to rational sign tests:
  t1 < 0  iff  0 < b and 0 < c        (d < b iff b > 0 and d2 < b2, and
                                       b2 - disc = 4 a c),
  t0 > 1  iff  b + 2a < 0 and 0 < a + b + c
                                      ((b + 2a)^2 - disc = 4 a (a + b + c)).
For a = 0 the direction is zero, so b = 0 and disc = 0; the source then
divides by zero, t0 and t1 are NaN, every comparison is false and
COLLISION is returned. -/
def collisionParticleSegment (p : Particle) (sx sy ex ey : ℚ) :
    CollisionType :=
  let dirx := ex - sx
  let diry := ey - sy
  let ocx := p.x - sx
  let ocy := p.y - sy
  let a := dirx ^ 2 + diry ^ 2
  let b := -2 * (dirx * ocx + diry * ocy)
  let c := ocx ^ 2 + ocy ^ 2 - p.radius ^ 2
  let disc := b ^ 2 - 4 * a * c
  if disc < 0 then .NO_COLLISION
  else if a = 0 then .COLLISION
  else if (0 < b ∧ 0 < c) ∨ (b + 2 * a < 0 ∧ 0 < a + b + c) then
    .NO_COLLISION
  else .COLLISION

/-- checkCollisionWithServer: the two straight pillar segments damp Vx on
contact; then fifty chords of each stored Bezier curve are tested in order
(curve1 before curve2 at each step, stopping at the first hit, which as a
Boolean outcome is an any over the steps), damping Vx and Vy on contact. -/
def checkCollisionWithServer (wb : Bounds) (params : Params)
    (c1 c2 : Bezier) (p : Particle) : Particle :=
  let x1 := (wb.left + wb.right - params.serverCapacity) * 0.5
  let y1 := wb.bottom + PILLARS_HEIGHT
  let xx1 := (wb.left + wb.right + params.serverCapacity) * 0.5
  let bottom := wb.bottom
  let coll1 := collisionParticleSegment p x1 y1 x1 bottom
  let coll2 := collisionParticleSegment p xx1 y1 xx1 bottom
  let p :=
    if coll1 ≠ .NO_COLLISION ∨ coll2 ≠ .NO_COLLISION then
      { p with Vx := p.Vx * (-0.8) }
    else p
  let hit := (List.range 50).any (fun k =>
    let i : ℚ := (k : ℚ) / 50
    let j : ℚ := ((k : ℚ) + 1) / 50
    let q0 := bezierPoint c1 i
    let q1 := bezierPoint c1 j
    let q02 := bezierPoint c2 i
    let q12 := bezierPoint c2 j
    decide (collisionParticleSegment p q0.1 q0.2 q1.1 q1.2 ≠
      .NO_COLLISION) ||
    decide (collisionParticleSegment p q02.1 q02.2 q12.1 q12.2 ≠
      .NO_COLLISION))
  if hit then { p with Vx := p.Vx * (-0.8), Vy := p.Vy * (-0.8) } else p

/-- The per-particle body of the simulationStep loop, in source order:
gravity, particle collisions, wall collisions, server collision,
displacement, intake stamp, removal once processed. -/
def particleBody (qt : Quadtree) (wb : Bounds) (dt : ℚ)
    (s : FluidState) (j : Nat) : FluidState :=
  match s.particles.get? j with
  | none => s
  | some _ =>
    let s := modifyAt s j (fun p => { p with Vy := p.Vy - GRAVITY * dt })
    let s := checkParticleCollision qt s j
    let s := modifyAt s j (checkWallCollisions wb s.params.particleRadius)
    let s := modifyAt s j
      (checkCollisionWithServer wb s.params s.curve1 s.curve2)
    let s := modifyAt s j (fun p =>
      { p with x := p.x + p.Vx * dt, y := p.y + p.Vy * dt })
    let s := modifyAt s j (fun p =>
      if p.startProcessingTime = none ∧ p.y ≤ wb.bottom + PILLARS_HEIGHT
      then { p with startProcessingTime := some s.simulationTime }
      else p)
    match s.particles.get? j with
    | none => s
    | some p =>
      match p.startProcessingTime, s.params.serverSpeed with
      | some t0, some speed =>
        if s.simulationTime - t0 ≥ speed then
          { s with particles := s.particles.eraseIdx j,
                   graveyard := s.graveyard ++ [p] }
        else s
      | _, _ => s

/-- The for..of loop over this.particles, which advances its index on
every step even when the body splices the current element out (so the
element shifted into the current slot is skipped, as in JavaScript). -/
def bodyLoop (qt : Quadtree) (wb : Bounds) (dt : ℚ) :
    Nat → Nat → FluidState → FluidState
  | 0, _, s => s
  | fuel + 1, j, s =>
    if j < s.particles.length then
      bodyLoop qt wb dt fuel (j + 1) (particleBody qt wb dt s j)
    else s

/-- simulationStep: advance the clock by deltaTime * 1000 milliseconds,
fire due spawn queue entries, rebuild the quadtree, then run the particle
loop. -/
def simulationStep (dt : ℚ) (wb : Bounds) (s : FluidState) : FluidState :=
  let s := { s with simulationTime := s.simulationTime + 1000 * dt,
                    graveyard := [] }
  let s := spawnPass s
  let qt := buildQuadTree wb s.particles
  bodyLoop qt wb dt s.particles.length 0 s

/-! ## Auxiliary definitions for the statements of the claims -/

deriving instance DecidableEq for Except


/-- Insert a list of particles left to right, keeping the resulting tree
(the Boolean results are discarded, as in buildQuadTree). -/
def insertAll (qt : Quadtree) (ps : List Particle) : Quadtree :=
  ps.foldl (fun t p => (t.insert p).2) qt

/-- A particle position strictly inside a rectangle. -/
def strictlyInsideR (b : Rect) (p : Particle) : Prop :=
  b.x < p.x ∧ p.x < b.x + b.width ∧ b.y < p.y ∧ p.y < b.y + b.height

/-- One rectangle inside another (componentwise interval inclusion). -/
def rectWithin (inner outer : Rect) : Prop :=
  outer.x ≤ inner.x ∧ inner.x + inner.width ≤ outer.x + outer.width ∧
  outer.y ≤ inner.y ∧ inner.y + inner.height ≤ outer.y + outer.height

/-- Structural well-formedness of a tree as built by insert from a fresh
root: every divided node has exactly the four subdivide quadrants as
children, and all rectangles have nonnegative extent. -/
def Quadtree.WFT : Quadtree → Prop
  | .leaf b _ _ => 0 ≤ b.width ∧ 0 ≤ b.height
  | .node b _ _ ne nw se sw =>
      0 ≤ b.width ∧ 0 ≤ b.height ∧
      ne.boundary = neRect b ∧ nw.boundary = nwRect b ∧
      se.boundary = seRect b ∧ sw.boundary = swRect b ∧
      ne.WFT ∧ nw.WFT ∧ se.WFT ∧ sw.WFT

/-! ## Concrete inputs for the evaluation theorems -/

/-- World bounds for the wall-clamp scenario: a camera with aspect ratio
1.6 and frustum size 1. -/
def c3bounds : Bounds := { left := -4/5, right := 4/5, top := 1/2, bottom := -1/2 }

/-- A state holding one particle near the top of the world moving right at
speed 100, with the default parameters and freshly refreshed server
curves.  No sources, so no randomness is consumed. -/
def c3state : FluidState :=
  let curves := refreshServerCapacity c3bounds (1/2)
  { particles := [{ id := 0, x := 0, y := 9/20, Vx := 100, Vy := 0,
                    startProcessingTime := none,
                    radius := PARTICLE_RADIUS_MULTIPLIER }],
    graveyard := [], particleSources := [], params := defaultParams,
    curve1 := curves.1, curve2 := curves.2,
    simulationTime := 0, nextId := 1, jitter := [] }

/-- A particle beyond the right wall limit, for the wall-clamp witness. -/
def c3particle : Particle :=
  { id := 0, x := 1, y := 0, Vx := 3, Vy := 0,
    startProcessingTime := none, radius := PARTICLE_RADIUS_MULTIPLIER }

/-- An empty engine state the capture of the loadPcap claim is loaded
into. -/
def c1state : FluidState :=
  let curves := refreshServerCapacity c3bounds (1/2)
  { particles := [], graveyard := [], particleSources := [],
    params := defaultParams, curve1 := curves.1, curve2 := curves.2,
    simulationTime := 0, nextId := 0, jitter := [] }

/-- First particle of a head-on colliding pair: at the origin, moving
right with speed 1. -/
def c8first : Particle :=
  { id := 0, x := 0, y := 0, Vx := 1, Vy := 0,
    startProcessingTime := none, radius := PARTICLE_RADIUS_MULTIPLIER }

/-- Second particle of the pair: at rest exactly two radii to the right,
so the surfaces touch and the pair is approaching. -/
def c8second : Particle :=
  { id := 1, x := 1/50, y := 0, Vx := 0, Vy := 0,
    startProcessingTime := none, radius := PARTICLE_RADIUS_MULTIPLIER }

/-- A capture whose single record is an Ethernet frame with a non-IPv4
EtherType: classified at the link layer but with an undefined network
payload. -/
def c10file : PcapFile :=
  { globalHeader :=
      { magicNumber := 0xa1b2c3d4, versionMajor := 2, versionMinor := 4,
        thisZone := 0, sigfigs := 0, snapLen := 65535, network := 1 },
    packets :=
      [{ header := { tsSec := 0, tsUsec := 0, inclLen := 60, origLen := 60 },
         packet := some { macDest := [0, 0, 0, 0, 0, 0],
                          macSrc := [0, 0, 0, 0, 0, 0],
                          etherType := 0x86dd, payload := none } }] }

/-- Root rectangle for the quadtree witness: the unit square. -/
def c5rect : Rect := { x := 0, y := 0, width := 1, height := 1 }

/-- Six distinct particles strictly inside the unit square: one more than
the node capacity of four, so the insertion path exercises subdivision. -/
def c5particles : List Particle :=
  [{ id := 0, x := 1/4, y := 1/4, Vx := 0, Vy := 0,
     startProcessingTime := none, radius := 1/100 },
   { id := 1, x := 3/4, y := 1/4, Vx := 0, Vy := 0,
     startProcessingTime := none, radius := 1/100 },
   { id := 2, x := 1/4, y := 3/4, Vx := 0, Vy := 0,
     startProcessingTime := none, radius := 1/100 },
   { id := 3, x := 3/4, y := 3/4, Vx := 0, Vy := 0,
     startProcessingTime := none, radius := 1/100 },
   { id := 4, x := 1/2, y := 1/2, Vx := 0, Vy := 0,
     startProcessingTime := none, radius := 1/100 },
   { id := 5, x := 1/3, y := 2/3, Vx := 0, Vy := 0,
     startProcessingTime := none, radius := 1/100 }]

/-- The frame decoded from ethTcpFrameBytes (the clamped payload of the
truncated record). -/
def truncatedRecordFrame : EthFrame :=
  { macDest := [0, 0, 0, 0, 0, 0],
    macSrc := [0, 0, 0, 0, 0, 0],
    etherType := 2048,
    payload := some
      { version := 4, headerLen := 20,
        differentiatedServicesCodepoint := 0, ecn := 0,
        ipLen := 40, ipId := 0,
        dontFragment := true, moreFragments := false,
        fragmentOffset := 0, ttl := 64, protocol := 6,
        headerChecksum := 0,
        sourceIP := [10, 0, 0, 1], destIP := [10, 0, 0, 2],
        options := [],
        datagram := some
          { sourcePort := 8080, destPort := 80,
            sequenceNumber := 1, ACKNumber := 0,
            dataOffset := 20, reserved := 0,
            CWR := false, ECE := false, URG := false, ACK := true,
            PSH := false, RST := false, SYN := true, FIN := false,
            window := 65535, checksum := 0, urgentPointer := 0,
            options := [], tcpData := [] } } }

/-- The decoded form of leTwoRecordCapture: little-endian global header and
the two records, each carrying the decoded Ethernet/IPv4/TCP frame. -/
def c4fileTwo : PcapFile :=
  { globalHeader :=
      { magicNumber := 0xd4c3b2a1, versionMajor := 2, versionMinor := 4,
        thisZone := 0, sigfigs := 0, snapLen := 65535, network := 1 },
    packets :=
      [{ header := { tsSec := 0, tsUsec := 0, inclLen := 54, origLen := 54 },
         packet := some truncatedRecordFrame },
       { header := { tsSec := 1, tsUsec := 500, inclLen := 54, origLen := 54 },
         packet := some truncatedRecordFrame }] }

/-- The global header decoded from globalHeaderBE. -/
def beGlobalHeader : GlobalHeader :=
  { magicNumber := 0xa1b2c3d4, versionMajor := 2, versionMinor := 4,
    thisZone := 0, sigfigs := 0, snapLen := 65535, network := 1 }

/-- The 32 bytes of the truncated capture before the capturedLength field:
global header plus the zero timestamp of the record header. -/
def capPre32 : List Nat := globalHeaderBE ++ [0, 0, 0, 0, 0, 0, 0, 0]

/-- The 58 bytes after the capturedLength field: the originalLength field
and the 54-byte frame. -/
def capPost58 : List Nat := encBE32 54 ++ ethTcpFrameBytes

/-! ## Theorems -/

set_option maxRecDepth 4000 in
/-- C6: for every byte value v in 0..255 and every N in 1..8, the N-bit
integer getFirstNBits(v, N) concatenated as high bits with the (8-N)-bit
integer getLastNBits(v, 8-N), that is getFirstNBits(v,N) * 2^(8-N) +
getLastNBits(v, 8-N), reconstructs v exactly. -/
theorem c6_bits_roundtrip : ∀ v : Nat, v < 256 → ∀ n : Nat, n ≤ 8 →
    1 ≤ n → getFirstNBits v n * 2 ^ (8 - n) + getLastNBits v (8 - n) = v := by
  decide

/-- Witness for C6 at v = 171, N = 3. -/
theorem c6_bits_roundtrip_witness : 171 < 256 ∧ (3 : Nat) ≤ 8 ∧ 1 ≤ 3 ∧
    getFirstNBits 171 3 * 2 ^ 5 + getLastNBits 171 5 = 171 :=
  ⟨by decide, by decide, by decide,
   c6_bits_roundtrip 171 (by decide) 3 (by decide) (by decide)⟩

/-- C7: TCP flag decoding of the flags byte 0b00010010 yields SYN and ACK
true and the six other flags false, with flag bits numbered LSB = bit 0
(FIN bit 0 through CWR bit 7), as evaluated on a concrete 20-byte TCP
segment whose flags byte is 0x12. -/
theorem c7_tcp_flags :
    byteAt tcpSegBytes 13 = 0b00010010 ∧
    (parseProtocolDatagram tcpSegBytes tcpProtocolNumber).toOption.map
      (fun o => o.map (fun t =>
        [t.FIN, t.SYN, t.RST, t.PSH, t.ACK, t.URG, t.ECE, t.CWR])) =
      some (some [false, true, false, false, true, false, false, false]) := by
  exact ⟨by decide, by decide⟩

/-- C8: whenever a collision between two particles is detected
(checkCollision returns COLLISION) and the impulse response of
checkParticleCollision is applied, the two velocity updates are exactly
opposite, so the total momentum at the shared mass PARTICLE_MASS is
unchanged. -/
theorem c8_impulse_conserves_momentum (p q : Particle)
    (_h : checkCollision p q = CollisionType.COLLISION) :
    ((applyImpulse p q).1.Vx - p.Vx = -((applyImpulse p q).2.Vx - q.Vx)) ∧
    ((applyImpulse p q).1.Vy - p.Vy = -((applyImpulse p q).2.Vy - q.Vy)) ∧
    PARTICLE_MASS * (applyImpulse p q).1.Vx +
        PARTICLE_MASS * (applyImpulse p q).2.Vx =
      PARTICLE_MASS * p.Vx + PARTICLE_MASS * q.Vx ∧
    PARTICLE_MASS * (applyImpulse p q).1.Vy +
        PARTICLE_MASS * (applyImpulse p q).2.Vy =
      PARTICLE_MASS * p.Vy + PARTICLE_MASS * q.Vy := by
  simp only [applyImpulse, impulseVelocity]
  refine ⟨by ring, by ring, by ring, by ring⟩

unseal Rat.add Rat.mul Rat.sub Rat.inv Rat.ofScientific in
/-- Witness for C8: a touching, approaching, equal-mass pair. -/
theorem c8_impulse_conserves_momentum_witness :
    checkCollision c8first c8second = CollisionType.COLLISION ∧
    PARTICLE_MASS * (applyImpulse c8first c8second).1.Vx +
        PARTICLE_MASS * (applyImpulse c8first c8second).2.Vx =
      PARTICLE_MASS * c8first.Vx + PARTICLE_MASS * c8second.Vx :=
  ⟨by decide,
   (c8_impulse_conserves_momentum c8first c8second (by decide)).2.2.1⟩

/-- C9: restart clears the live particle set, resets every spawned flag of
every source, resets the clock to 0, and is idempotent. -/
theorem c9_restart_resets_and_idempotent (wb : Bounds) (s : FluidState) :
    (restart wb s).particles = [] ∧
    (restart wb s).simulationTime = 0 ∧
    (∀ src ∈ (restart wb s).particleSources, ∀ it ∈ src.spawnQueue,
      it.spawned = false) ∧
    restart wb (restart wb s) = restart wb s := by
  refine ⟨rfl, rfl, ?_, ?_⟩
  · intro src hsrc it hit
    simp only [restart, List.mem_map] at hsrc
    obtain ⟨src0, -, rfl⟩ := hsrc
    simp only [List.mem_map] at hit
    obtain ⟨it0, -, rfl⟩ := hit
    rfl
  · simp [restart, List.map_map, Function.comp_def]

set_option maxRecDepth 8000 in
unseal Rat.add Rat.mul Rat.sub Rat.inv Rat.ofScientific in
/-- C1 (evaluation at the failing input): loading the capture with three
Ethernet/IPv4/TCP records at microsecond offsets 0, 1500, 4000 produces a
single source whose spawnQueue fire times are [0, 1500, 4000] in ascending
order: the code adds raw microseconds to milliseconds, so the times are
not the [0, 1.5, 4] milliseconds the specification requires. -/
theorem c1_spawn_schedule_evaluation :
    ((parsePcapFile threeRecordCapture).bind loadPcap).toOption.map
      (fun src => src.spawnQueue.map (fun it => it.time)) =
      some [0, 1500, 4000] ∧
    ((parsePcapFile threeRecordCapture).bind
        (loadPcapState c1state)).toOption.map
      (fun st => st.particleSources.map
        (fun src => src.spawnQueue.map (fun it => it.time))) =
      some [[0, 1500, 4000]] := by
  exact ⟨by decide, by decide⟩

set_option maxRecDepth 8000 in
unseal Rat.add Rat.mul Rat.sub Rat.inv Rat.ofScientific in
/-- C3 (counterexample): one simulationStep of a particle at x = 0 moving
with Vx = 100 under deltaTime 2/125 in the world with right bound 4/5 ends
the tick at x = 8/5, strictly beyond worldBounds.right, because the wall
clamp runs before the positional integration. -/
theorem c3_counterexample :
    c3bounds.right = 4/5 ∧
    (simulationStep (2/125) c3bounds c3state).particles.map (fun p => p.x) =
      [8/5] ∧
    ¬ ((8 : ℚ)/5 ≤ 4/5) := by
  exact ⟨by decide, by decide, by decide⟩

/-- C3 (amended): the wall-collision resolution itself clamps exactly, to
rightLimit = right - particleRadius/2 which is at most right, and zeroes
(rather than reflects) the x velocity of a particle at or beyond the
limit; but it runs before the integration step, so the in-bounds guarantee
holds at the wall-check moment of the next tick, not at the end of the
tick that drove the particle out. -/
theorem c3_wall_clamp (wb : Bounds) (pr : ℚ) (p : Particle)
    (hpr : 0 ≤ pr)
    (hlim : wb.left + pr * 0.5 ≤ wb.right - pr * 0.5) :
    (checkWallCollisions wb pr p).x ≤ wb.right ∧
    (wb.right - pr * 0.5 ≤ p.x → (checkWallCollisions wb pr p).Vx = 0) := by
  simp only [checkWallCollisions]
  split_ifs <;> simp_all <;> linarith

unseal Rat.add Rat.mul Rat.sub Rat.inv Rat.ofScientific in
/-- Witness for C3 amended at the default radius and a particle beyond the
right limit. -/
theorem c3_wall_clamp_witness :
    (checkWallCollisions c3bounds (1/100) c3particle).x ≤ c3bounds.right ∧
    (c3bounds.right - (1/100) * 0.5 ≤ c3particle.x →
      (checkWallCollisions c3bounds (1/100) c3particle).Vx = 0) :=
  c3_wall_clamp c3bounds (1/100) c3particle (by decide) (by decide)

/-- C10: when every record of a capture has an unclassified transport
payload, the filtered list of loadPcap is empty and reading the header of
its first element fails with a TypeError (member access on undefined)
instead of producing a source with an empty spawnQueue. -/
theorem c10_loadpcap_needs_classified_record (f : PcapFile)
    (h : ∀ r ∈ f.packets, ∀ fr, r.packet = some fr → fr.payload = none) :
    loadPcap f = .error .typeError := by
  have key : ∀ l : List PRecord,
      (∀ r ∈ l, ∀ fr, r.packet = some fr → fr.payload = none) →
      filterClassified l = .ok [] ∨
      filterClassified l = .error .typeError := by
    intro l
    induction l with
    | nil => intro _; left; rfl
    | cons r rs ih =>
      intro hl
      cases hr : r.packet with
      | none => right; simp [filterClassified, hr]
      | some fr =>
        have hp : fr.payload = none := hl r (by simp) fr hr
        rcases ih (fun r' h' => hl r' (by simp [h'])) with h1 | h1 <;>
          simp [filterClassified, hr, h1, hp, Except.bind]
  rcases key f.packets h with h1 | h1 <;> · simp only [loadPcap, h1]; rfl

/-- Witness for C10: a one-record capture whose Ethernet frame has a
non-IPv4 EtherType and hence an undefined payload. -/
theorem c10_loadpcap_needs_classified_record_witness :
    loadPcap c10file = .error .typeError :=
  c10_loadpcap_needs_classified_record c10file (by
    intro r hr fr hfr
    simp only [c10file, List.mem_singleton] at hr
    subst hr
    cases hfr
    rfl)

/-- Reduction of Except bind on a success value. -/
theorem exceptBind_ok {α β : Type} (a : α) (k : α → Except JsError β) :
    (Except.ok a >>= k) = k a := rfl

/-- Reduction of Except bind on an error. -/
theorem exceptBind_error {α β : Type} (e : JsError)
    (k : α → Except JsError β) :
    ((Except.error e : Except JsError α) >>= k) =
      (Except.error e : Except JsError β) := rfl

/-- Reduction of Except map on a success value. -/
theorem exceptMap_ok {α β : Type} (g : α → β) (a : α) :
    (g <$> (Except.ok a : Except JsError α)) = Except.ok (g a) := rfl

/-- Reduction of Except map on an error. -/
theorem exceptMap_error {α β : Type} (g : α → β) (e : JsError) :
    (g <$> (Except.error e : Except JsError α)) =
      (Except.error e : Except JsError β) := rfl

/-- A successful readU32 returns the little- or big-endian value of the
four bytes at the offset, per its endianness flag. -/
theorem readU32_ok_spec (le : Bool) (bs : List Nat) (off v : Nat)
    (h : readU32 le bs off = .ok v) :
    v = if le then specLE32 bs off else specBE32 bs off := by
  unfold readU32 at h
  split at h
  · cases le <;> simp_all [specLE32, specBE32]
  · simp at h

/-- A successful readU16 returns the little- or big-endian value of the
two bytes at the offset. -/
theorem readU16_ok_spec (le : Bool) (bs : List Nat) (off v : Nat)
    (h : readU16 le bs off = .ok v) :
    v = if le then specLE16 bs off else specBE16 bs off := by
  unfold readU16 at h
  split at h
  · cases le <;> simp_all [specLE16, specBE16]
  · simp at h

/-- A successful readI32 returns the signed reinterpretation of the
corresponding unsigned read. -/
theorem readI32_ok_spec (le : Bool) (bs : List Nat) (off : Nat) (v : Int)
    (h : readI32 le bs off = .ok v) :
    v = toI32 (if le then specLE32 bs off else specBE32 bs off) := by
  unfold readI32 at h
  cases hu : readU32 le bs off with
  | error e => rw [hu] at h; simp [Except.map] at h
  | ok u =>
    rw [hu] at h; simp [Except.map] at h
    rw [← h, readU32_ok_spec le bs off u hu]

/-- When the record loop succeeds, the headers of the records it returns
are exactly the spec-side record-header sequence at the same byte order,
fuel and starting offset: every header field of every record comes from
the spec-side reader of the selected byte order at the spec offset. -/
theorem parseRecords_headers_spec (le : Bool) (bs : List Nat)
    (network : Nat) : ∀ fuel byteNum recs,
    parseRecords le bs network fuel byteNum = .ok recs →
    recs.map PRecord.header = specRecordHeaders le bs fuel byteNum := by
  intro fuel
  induction fuel with
  | zero =>
    intro byteNum recs h
    simp only [parseRecords, pure, Except.pure, Except.ok.injEq] at h
    subst h
    rfl
  | succ n ih =>
    intro byteNum recs h
    rw [show (n + 1 : Nat) = Nat.succ n from rfl, parseRecords.eq_2] at h
    rw [show (n + 1 : Nat) = Nat.succ n from rfl, specRecordHeaders.eq_2]
    by_cases hlt : byteNum < bs.length
    case neg =>
      rw [if_neg hlt] at h
      rw [if_neg hlt]
      simp only [pure, Except.pure, Except.ok.injEq] at h
      subst h
      rfl
    case pos =>
      rw [if_pos hlt] at h
      rw [if_pos hlt]
      cases hr1 : readU32 le bs byteNum with
      | error e => simp [hr1, exceptBind_error] at h
      | ok w1 =>
      cases hr2 : readU32 le bs (byteNum + 4) with
      | error e => simp [hr1, hr2, exceptBind_error, exceptBind_ok] at h
      | ok w2 =>
      cases hr3 : readU32 le bs (byteNum + 8) with
      | error e => simp [hr1, hr2, hr3, exceptBind_error, exceptBind_ok] at h
      | ok w3 =>
      cases hr4 : readU32 le bs (byteNum + 12) with
      | error e =>
        simp [hr1, hr2, hr3, hr4, exceptBind_error, exceptBind_ok] at h
      | ok w4 =>
      cases hpk : parsePcapPacket
          (sliceBytes bs (byteNum + 16) (byteNum + 16 + w3)) network with
      | error e =>
        simp [hr1, hr2, hr3, hr4, hpk, exceptBind_error, exceptBind_ok] at h
      | ok pk =>
      cases hrest : parseRecords le bs network n (byteNum + 16 + w3) with
      | error e =>
        simp [hr1, hr2, hr3, hr4, hpk, hrest, exceptBind_error,
          exceptBind_ok] at h
      | ok rest =>
      simp only [hr1, hr2, hr3, hr4, hpk, hrest, exceptBind_ok,
        pure, Except.pure, Except.ok.injEq] at h
      subst h
      have hw1 := readU32_ok_spec le bs byteNum w1 hr1
      have hw2 := readU32_ok_spec le bs (byteNum + 4) w2 hr2
      have hw3 := readU32_ok_spec le bs (byteNum + 8) w3 hr3
      have hw4 := readU32_ok_spec le bs (byteNum + 12) w4 hr4
      have htail := ih (byteNum + 16 + w3) rest hrest
      simp only [List.map_cons, specRead32, ← hw1, ← hw2, ← hw3, ← hw4,
        htail]

/-- C4: decoding reads the first 4 bytes as a big-endian u32 magic; if and
only if it equals 0xD4C3B2A1 every subsequent multi-byte global-header
field and record-header field is read little-endian, otherwise big-endian,
with no other fallback.  Stated against independent spec-side byte-order
readers: the six global-header fields after the magic, and the header list
of all records, which equals the spec-side record-header sequence read
with the selected byte order starting at offset 24 (so every header field
of every record is read with that byte order at the spec offsets). -/
theorem c4_byte_order_selection (bs : List Nat) (f : PcapFile)
    (h : parsePcapFile bs = .ok f) :
    (specBE32 bs 0 = 0xd4c3b2a1 →
      f.globalHeader.versionMajor = specLE16 bs 4 ∧
      f.globalHeader.versionMinor = specLE16 bs 6 ∧
      f.globalHeader.thisZone = toI32 (specLE32 bs 8) ∧
      f.globalHeader.sigfigs = specLE32 bs 12 ∧
      f.globalHeader.snapLen = specLE32 bs 16 ∧
      f.globalHeader.network = specLE32 bs 20 ∧
      f.packets.map PRecord.header =
        specRecordHeaders true bs (bs.length + 1) 24) ∧
    (specBE32 bs 0 ≠ 0xd4c3b2a1 →
      f.globalHeader.versionMajor = specBE16 bs 4 ∧
      f.globalHeader.versionMinor = specBE16 bs 6 ∧
      f.globalHeader.thisZone = toI32 (specBE32 bs 8) ∧
      f.globalHeader.sigfigs = specBE32 bs 12 ∧
      f.globalHeader.snapLen = specBE32 bs 16 ∧
      f.globalHeader.network = specBE32 bs 20 ∧
      f.packets.map PRecord.header =
        specRecordHeaders false bs (bs.length + 1) 24) := by
  cases hmag : readU32 false bs 0 with
  | error e => simp [parsePcapFile, hmag, exceptBind_error] at h
  | ok magic =>
  have hmagv : magic = specBE32 bs 0 := by
    have := readU32_ok_spec false bs 0 magic hmag; simpa using this
  cases h1 : readU16 (magic == 0xd4c3b2a1) bs 4 with
  | error e => simp [parsePcapFile, hmag, h1, exceptBind_error, exceptBind_ok] at h
  | ok v1 =>
  cases h2 : readU16 (magic == 0xd4c3b2a1) bs 6 with
  | error e => simp [parsePcapFile, hmag, h1, h2, exceptBind_error, exceptBind_ok] at h
  | ok v2 =>
  cases h3 : readI32 (magic == 0xd4c3b2a1) bs 8 with
  | error e => simp [parsePcapFile, hmag, h1, h2, h3, exceptBind_error, exceptBind_ok] at h
  | ok v3 =>
  cases h4 : readU32 (magic == 0xd4c3b2a1) bs 12 with
  | error e => simp [parsePcapFile, hmag, h1, h2, h3, h4, exceptBind_error, exceptBind_ok] at h
  | ok v4 =>
  cases h5 : readU32 (magic == 0xd4c3b2a1) bs 16 with
  | error e => simp [parsePcapFile, hmag, h1, h2, h3, h4, h5, exceptBind_error, exceptBind_ok] at h
  | ok v5 =>
  cases h6 : readU32 (magic == 0xd4c3b2a1) bs 20 with
  | error e => simp [parsePcapFile, hmag, h1, h2, h3, h4, h5, h6, exceptBind_error, exceptBind_ok] at h
  | ok v6 =>
  cases hrec : parseRecords (magic == 0xd4c3b2a1) bs v6 (bs.length + 1) 24 with
  | error e =>
    simp [parsePcapFile, hmag, h1, h2, h3, h4, h5, h6, hrec,
      exceptBind_error, exceptBind_ok, exceptMap_error] at h
  | ok packets =>
  simp only [parsePcapFile, hmag, h1, h2, h3, h4, h5, h6, hrec,
    exceptBind_ok, exceptMap_ok, pure, Except.pure, Except.ok.injEq] at h
  subst h
  have hmap := parseRecords_headers_spec (magic == 0xd4c3b2a1) bs v6
    (bs.length + 1) 24 packets hrec
  constructor
  · intro hle
    have hbeq : (magic == 0xd4c3b2a1) = true := by
      simp [hmagv, hle]
    refine ⟨?_, ?_, ?_, ?_, ?_, ?_, ?_⟩
    · simpa [hbeq] using readU16_ok_spec _ bs 4 v1 h1
    · simpa [hbeq] using readU16_ok_spec _ bs 6 v2 h2
    · simpa [hbeq] using readI32_ok_spec _ bs 8 v3 h3
    · simpa [hbeq] using readU32_ok_spec _ bs 12 v4 h4
    · simpa [hbeq] using readU32_ok_spec _ bs 16 v5 h5
    · simpa [hbeq] using readU32_ok_spec _ bs 20 v6 h6
    · simpa [hbeq] using hmap
  · intro hne
    have hbeq : (magic == 0xd4c3b2a1) = false := by
      simp [hmagv]
      intro hc
      exact absurd hc hne
    refine ⟨?_, ?_, ?_, ?_, ?_, ?_, ?_⟩
    · simpa [hbeq] using readU16_ok_spec _ bs 4 v1 h1
    · simpa [hbeq] using readU16_ok_spec _ bs 6 v2 h2
    · simpa [hbeq] using readI32_ok_spec _ bs 8 v3 h3
    · simpa [hbeq] using readU32_ok_spec _ bs 12 v4 h4
    · simpa [hbeq] using readU32_ok_spec _ bs 16 v5 h5
    · simpa [hbeq] using readU32_ok_spec _ bs 20 v6 h6
    · simpa [hbeq] using hmap

set_option maxRecDepth 8000 in
/-- Witness for C4: a little-endian capture with two records; the theorem
applied to it gives the little-endian global-header readings and the
spec-side headers of both records, which evaluate to the encoded
timestamps and lengths. -/
theorem c4_byte_order_selection_witness :
    parsePcapFile leTwoRecordCapture = .ok c4fileTwo ∧
    specBE32 leTwoRecordCapture 0 = 0xd4c3b2a1 ∧
    c4fileTwo.globalHeader.versionMajor = specLE16 leTwoRecordCapture 4 ∧
    c4fileTwo.packets.map PRecord.header =
      specRecordHeaders true leTwoRecordCapture
        (leTwoRecordCapture.length + 1) 24 ∧
    specRecordHeaders true leTwoRecordCapture
        (leTwoRecordCapture.length + 1) 24 =
      [{ tsSec := 0, tsUsec := 0, inclLen := 54, origLen := 54 },
       { tsSec := 1, tsUsec := 500, inclLen := 54, origLen := 54 }] :=
  ⟨by decide, by decide,
   ((c4_byte_order_selection leTwoRecordCapture c4fileTwo (by decide)).1
     (by decide)).1,
   ((c4_byte_order_selection leTwoRecordCapture c4fileTwo (by decide)).1
     (by decide)).2.2.2.2.2.2,
   by decide⟩

/-- The record loop immediately stops once the cursor has reached the end
of the buffer, whatever fuel remains. -/
theorem parseRecords_stop (le : Bool) (bs : List Nat) (network fuel
    byteNum : Nat) (h : ¬ byteNum < bs.length) :
    parseRecords le bs network fuel byteNum = pure [] := by
  cases fuel with
  | zero => rfl
  | succ fuel => rw [parseRecords.eq_2, if_neg h]

/-- Big-endian readU32 in terms of four known byte values. -/
theorem readU32_eq (bs : List Nat) (off w x y z : Nat)
    (hlen : off + 4 ≤ bs.length)
    (h0 : byteAt bs off = w) (h1 : byteAt bs (off + 1) = x)
    (h2 : byteAt bs (off + 2) = y) (h3 : byteAt bs (off + 3) = z) :
    readU32 false bs off = .ok (((w * 256 + x) * 256 + y) * 256 + z) := by
  unfold readU32
  rw [if_pos hlen, h0, h1, h2, h3]
  simp

/-- Big-endian readU16 in terms of two known byte values. -/
theorem readU16_eq (bs : List Nat) (off w x : Nat)
    (hlen : off + 2 ≤ bs.length)
    (h0 : byteAt bs off = w) (h1 : byteAt bs (off + 1) = x) :
    readU16 false bs off = .ok (w * 256 + x) := by
  unfold readU16
  rw [if_pos hlen, h0, h1]
  simp

set_option maxHeartbeats 1000000 in
/-- Core of the truncation analysis: for any four capturedLength bytes
decoding to a value larger than the 54 remaining payload bytes, the parse
succeeds, the payload slice is clamped to the buffer end, the record is
classified from the clamped payload and returned; no error of any kind is
raised. -/
theorem c2_core (b0 b1 b2 b3 : Nat)
    (h : 54 < ((b0 * 256 + b1) * 256 + b2) * 256 + b3) :
    parsePcapFile (capPre32 ++ ([b0, b1, b2, b3] ++ capPost58)) =
      .ok { globalHeader := beGlobalHeader,
            packets :=
              [{ header :=
                   { tsSec := 0, tsUsec := 0,
                     inclLen := ((b0 * 256 + b1) * 256 + b2) * 256 + b3,
                     origLen := 54 },
                 packet := some truncatedRecordFrame }] } := by
  set N := ((b0 * 256 + b1) * 256 + b2) * 256 + b3 with hN
  set bs := capPre32 ++ ([b0, b1, b2, b3] ++ capPost58) with hbs
  have hpre : capPre32.length = 32 := by decide
  have hlen : bs.length = 94 := by
    rw [hbs]
    simp [capPre32, capPost58, globalHeaderBE, encBE32, ethTcpFrameBytes,
      tcpSegBytes]
  have hbL : ∀ i, i < 32 → byteAt bs i = byteAt capPre32 i := by
    intro i hi
    rw [hbs]
    exact List.getD_append _ _ _ _ (by rw [hpre]; omega)
  have hbM : ∀ k, k < 4 →
      byteAt bs (32 + k) = byteAt [b0, b1, b2, b3] k := by
    intro k hk
    rw [hbs]
    unfold byteAt
    rw [List.getD_append_right _ _ _ _ (by rw [hpre]; omega), hpre]
    rw [show 32 + k - 32 = k from by omega]
    exact List.getD_append _ _ _ _ (by simp; omega)
  have hbR : ∀ k, byteAt bs (36 + k) = byteAt capPost58 k := by
    intro k
    rw [hbs]
    unfold byteAt
    rw [List.getD_append_right _ _ _ _ (by rw [hpre]; omega), hpre]
    rw [show 36 + k - 32 = 4 + k from by omega]
    rw [List.getD_append_right _ _ _ _ (by simp)]
    simp
  simp only [parsePcapFile]
  rw [readU32_eq bs 0 0xa1 0xb2 0xc3 0xd4 (by omega)
    (by rw [hbL 0 (by omega)]; decide) (by rw [hbL 1 (by omega)]; decide)
    (by rw [hbL 2 (by omega)]; decide) (by rw [hbL 3 (by omega)]; decide)]
  simp only [exceptBind_ok]
  rw [show ((0xa1b2c3d4 : Nat) == 0xd4c3b2a1) = false from by decide]
  rw [readU16_eq bs 4 0 2 (by omega)
    (by rw [hbL 4 (by omega)]; decide) (by rw [hbL 5 (by omega)]; decide)]
  simp only [exceptBind_ok]
  rw [readU16_eq bs 6 0 4 (by omega)
    (by rw [hbL 6 (by omega)]; decide) (by rw [hbL 7 (by omega)]; decide)]
  simp only [exceptBind_ok]
  rw [show readI32 false bs 8 = .ok 0 from by
    unfold readI32
    rw [readU32_eq bs 8 0 0 0 0 (by omega)
      (by rw [hbL 8 (by omega)]; decide) (by rw [hbL 9 (by omega)]; decide)
      (by rw [hbL 10 (by omega)]; decide)
      (by rw [hbL 11 (by omega)]; decide)]
    rfl]
  simp only [exceptBind_ok]
  rw [readU32_eq bs 12 0 0 0 0 (by omega)
    (by rw [hbL 12 (by omega)]; decide) (by rw [hbL 13 (by omega)]; decide)
    (by rw [hbL 14 (by omega)]; decide) (by rw [hbL 15 (by omega)]; decide)]
  simp only [exceptBind_ok]
  rw [readU32_eq bs 16 0 0 0xff 0xff (by omega)
    (by rw [hbL 16 (by omega)]; decide) (by rw [hbL 17 (by omega)]; decide)
    (by rw [hbL 18 (by omega)]; decide) (by rw [hbL 19 (by omega)]; decide)]
  simp only [exceptBind_ok]
  rw [readU32_eq bs 20 0 0 0 1 (by omega)
    (by rw [hbL 20 (by omega)]; decide) (by rw [hbL 21 (by omega)]; decide)
    (by rw [hbL 22 (by omega)]; decide) (by rw [hbL 23 (by omega)]; decide)]
  simp only [exceptBind_ok]
  norm_num
  rw [show bs.length + 1 = Nat.succ 94 from by rw [hlen]]
  rw [parseRecords.eq_2, if_pos (by rw [hlen]; omega)]
  rw [readU32_eq bs 24 0 0 0 0 (by omega)
    (by rw [hbL 24 (by omega)]; decide) (by rw [hbL 25 (by omega)]; decide)
    (by rw [hbL 26 (by omega)]; decide) (by rw [hbL 27 (by omega)]; decide)]
  simp only [exceptBind_ok]
  rw [show (24 + 4 : Nat) = 28 from rfl]
  rw [readU32_eq bs 28 0 0 0 0 (by omega)
    (by rw [hbL 28 (by omega)]; decide) (by rw [hbL 29 (by omega)]; decide)
    (by rw [hbL 30 (by omega)]; decide) (by rw [hbL 31 (by omega)]; decide)]
  simp only [exceptBind_ok]
  rw [show (24 + 8 : Nat) = 32 from rfl]
  rw [readU32_eq bs 32 b0 b1 b2 b3 (by omega)
    (by rw [show (32 : Nat) = 32 + 0 from rfl, hbM 0 (by omega)]; rfl)
    (by rw [show (32 + 1 : Nat) = 32 + 1 from rfl, hbM 1 (by omega)]; rfl)
    (by rw [show (32 + 2 : Nat) = 32 + 2 from rfl, hbM 2 (by omega)]; rfl)
    (by rw [show (32 + 3 : Nat) = 32 + 3 from rfl, hbM 3 (by omega)]; rfl)]
  simp only [exceptBind_ok]
  rw [show (24 + 12 : Nat) = 36 from rfl]
  rw [readU32_eq bs 36 0 0 0 54 (by omega)
    (by rw [show (36 : Nat) = 36 + 0 from rfl, hbR 0]; decide)
    (by rw [show (36 + 1 : Nat) = 36 + 1 from rfl, hbR 1]; decide)
    (by rw [show (36 + 2 : Nat) = 36 + 2 from rfl, hbR 2]; decide)
    (by rw [show (36 + 3 : Nat) = 36 + 3 from rfl, hbR 3]; decide)]
  simp only [exceptBind_ok]
  have hslice : sliceBytes bs (24 + 16) (24 + 16 + N) = ethTcpFrameBytes := by
    unfold sliceBytes
    rw [show bs.drop (24 + 16) = ethTcpFrameBytes from by
      rw [hbs]; rfl]
    rw [show 24 + 16 + N - (24 + 16) = N from by omega]
    exact List.take_of_length_le (by
      rw [show ethTcpFrameBytes.length = 54 from by decide]; omega)
  rw [hslice]
  rw [show parsePcapPacket ethTcpFrameBytes 1 =
      .ok (some truncatedRecordFrame) from by decide]
  simp only [exceptBind_ok]
  rw [parseRecords_stop false bs 1 94 (24 + 16 + N) (by rw [hlen]; omega)]
  rfl

/-- C2 (amended): for every declared capturedLength larger than the bytes
remaining after the record header, decode does not raise TruncatedRecord
(no such error exists in the code); ArrayBuffer.slice clamps the payload
to the buffer end and the truncated record is returned as a normal
record. -/
theorem c2_amended (big : Nat) (h54 : 54 < big) (h32 : big < 2 ^ 32) :
    parsePcapFile (truncatedCapture big) =
      .ok { globalHeader := beGlobalHeader,
            packets :=
              [{ header := { tsSec := 0, tsUsec := 0, inclLen := big,
                             origLen := 54 },
                 packet := some truncatedRecordFrame }] } := by
  have hshape : truncatedCapture big =
      capPre32 ++ ([big / 2 ^ 24 % 256, big / 2 ^ 16 % 256,
        big / 2 ^ 8 % 256, big % 256] ++ capPost58) := by
    simp [truncatedCapture, capPre32, capPost58, encBE32, List.append_assoc]
  have hcomb : ((big / 2 ^ 24 % 256 * 256 + big / 2 ^ 16 % 256) * 256 +
      big / 2 ^ 8 % 256) * 256 + big % 256 = big := by omega
  have hcore := c2_core (big / 2 ^ 24 % 256) (big / 2 ^ 16 % 256)
    (big / 2 ^ 8 % 256) (big % 256) (by rw [hcomb]; exact h54)
  rw [hcomb] at hcore
  rw [hshape]
  exact hcore

/-- C2 (counterexample): a capture whose record header declares 1000
captured bytes while only 54 remain decodes without any error to a
one-record list, falsifying both the TruncatedRecord failure and the
no-records part of the claim. -/
theorem c2_counterexample :
    (truncatedCapture 1000).length - (24 + 16) = 54 ∧ (54 : Nat) < 1000 ∧
    (parsePcapFile (truncatedCapture 1000)).toOption.map
      (fun f => f.packets.map (fun r => (r.header.inclLen,
        r.packet.isSome))) = some [(1000, true)] :=
  ⟨by decide, by decide, by decide⟩

/-- Witness for C2 amended at capturedLength 1000. -/
theorem c2_amended_witness :
    (54 : Nat) < 1000 ∧ 1000 < 2 ^ 32 ∧
    parsePcapFile (truncatedCapture 1000) =
      .ok { globalHeader := beGlobalHeader,
            packets :=
              [{ header := { tsSec := 0, tsUsec := 0, inclLen := 1000,
                             origLen := 54 },
                 packet := some truncatedRecordFrame }] } :=
  ⟨by decide, by decide, c2_amended 1000 (by decide) (by decide)⟩

/-- Insertion never changes the boundary of the node it starts at. -/
theorem insert_boundary (qt : Quadtree) (p : Particle) :
    (qt.insert p).2.boundary = qt.boundary := by
  cases qt <;> simp only [Quadtree.insert] <;> split_ifs <;> rfl

/-- Insertion into a node whose boundary does not contain the particle
returns false and leaves the tree unchanged. -/
theorem insert_of_not_contains (qt : Quadtree) (p : Particle)
    (h : ¬ rectContainsP qt.boundary p = true) :
    qt.insert p = (false, qt) := by
  cases qt <;> simp [Quadtree.insert, Quadtree.boundary] at h ⊢ <;> simp [h]

/-- A particle inside a boundary lies in one of the four subdivide
quadrants, stated along the delegation order of insert: either the
northeast quadrant contains it, or the northeast one does not and the
northwest one does, and so on. -/
theorem quadrant_chain (b : Rect) (p : Particle)
    (hc : rectContainsP b p = true) :
    (rectContainsP (neRect b) p = true) ∨
    (¬ rectContainsP (neRect b) p = true ∧
      rectContainsP (nwRect b) p = true) ∨
    (¬ rectContainsP (neRect b) p = true ∧
      ¬ rectContainsP (nwRect b) p = true ∧
      rectContainsP (seRect b) p = true) ∨
    (¬ rectContainsP (neRect b) p = true ∧
      ¬ rectContainsP (nwRect b) p = true ∧
      ¬ rectContainsP (seRect b) p = true ∧
      rectContainsP (swRect b) p = true) := by
  simp only [rectContainsP, neRect, nwRect, seRect, swRect,
    decide_eq_true_eq] at *
  obtain ⟨h1, h2, h3, h4⟩ := hc
  rcases le_or_lt (b.x + b.width * 0.5) p.x with hx | hx <;>
    rcases le_or_lt (b.y + b.height * 0.5) p.y with hy | hy
  · exact Or.inl ⟨hx, by linarith, hy, by linarith⟩
  · refine Or.inr (Or.inr (Or.inl ⟨?_, ?_, hx, by linarith, h3, hy⟩))
    · rintro ⟨-, -, hcy, -⟩
      exact absurd hcy (not_le.mpr hy)
    · rintro ⟨-, -, hcy, -⟩
      exact absurd hcy (not_le.mpr hy)
  · refine Or.inr (Or.inl ⟨?_, h1, hx, hy, by linarith⟩)
    rintro ⟨hcx, -, -, -⟩
    exact absurd hcx (not_le.mpr hx)
  · refine Or.inr (Or.inr (Or.inr ⟨?_, ?_, ?_, h1, hx, h3, hy⟩))
    · rintro ⟨hcx, -, -, -⟩
      exact absurd hcx (not_le.mpr hx)
    · rintro ⟨-, -, hcy, -⟩
      exact absurd hcy (not_le.mpr hy)
    · rintro ⟨hcx, -, -, -⟩
      exact absurd hcx (not_le.mpr hx)

/-- Insertion into a well-formed tree whose root boundary contains the
particle always succeeds. -/
theorem insert_fst_of_contains (qt : Quadtree) (p : Particle)
    (hwf : qt.WFT) (hc : rectContainsP qt.boundary p = true) :
    (qt.insert p).1 = true := by
  induction qt with
  | leaf b c ps =>
    simp only [Quadtree.boundary] at hc
    simp only [Quadtree.insert, hc, Bool.not_true, Bool.false_eq_true,
      if_false]
    split_ifs with hlen hne hnw hse hsw <;> try rfl
    rcases quadrant_chain b p hc with h | ⟨-, h⟩ | ⟨-, -, h⟩ |
      ⟨-, -, -, h⟩ <;> simp_all
  | node b c ps ne nw se sw ihne ihnw ihse ihsw =>
    obtain ⟨hw, hh, hbne, hbnw, hbse, hbsw, wfne, wfnw, wfse, wfsw⟩ := hwf
    simp only [Quadtree.boundary] at hc
    simp only [Quadtree.insert, hc, Bool.not_true, Bool.false_eq_true,
      if_false]
    split_ifs with hlen h1 h2 h3 <;> try rfl
    rcases quadrant_chain b p hc with h | ⟨-, h⟩ | ⟨-, -, h⟩ |
      ⟨-, -, -, h⟩
    · exact absurd (ihne wfne (by rw [hbne]; exact h)) h1
    · exact absurd (ihnw wfnw (by rw [hbnw]; exact h)) h2
    · exact absurd (ihse wfse (by rw [hbse]; exact h)) h3
    · exact ihsw wfsw (by rw [hbsw]; exact h)

/-- Insertion preserves structural well-formedness. -/
theorem insert_WFT (qt : Quadtree) (p : Particle) (hwf : qt.WFT) :
    ((qt.insert p).2).WFT := by
  induction qt with
  | leaf b c ps =>
    obtain ⟨hw, hh⟩ := hwf
    have hw2 : (0:ℚ) ≤ b.width * 0.5 := by
      have : (0:ℚ) ≤ 0.5 := by norm_num
      exact mul_nonneg hw this
    have hh2 : (0:ℚ) ≤ b.height * 0.5 := by
      have : (0:ℚ) ≤ 0.5 := by norm_num
      exact mul_nonneg hh this
    simp only [Quadtree.insert]
    split_ifs <;>
      simp_all [Quadtree.WFT, Quadtree.boundary, neRect, nwRect, seRect,
        swRect]
  | node b c ps ne nw se sw ihne ihnw ihse ihsw =>
    obtain ⟨hw, hh, hbne, hbnw, hbse, hbsw, wfne, wfnw, wfse, wfsw⟩ := hwf
    simp only [Quadtree.insert]
    split_ifs <;>
      refine ⟨hw, hh, ?_, ?_, ?_, ?_, ?_, ?_, ?_, ?_⟩ <;>
      simp [insert_boundary, hbne, hbnw, hbse, hbsw, wfne, wfnw, wfse,
        wfsw, ihne, ihnw, ihse, ihsw]

/-- The stored particles after an insertion are a permutation of the old
ones plus the new particle when the insertion succeeded, and of exactly
the old ones when it failed. -/
theorem insert_elems_perm (qt : Quadtree) (p : Particle) :
    ((qt.insert p).2.elems).Perm
      ((if (qt.insert p).1 = true then [p] else []) ++ qt.elems) := by
  induction qt with
  | leaf b c ps =>
    simp only [Quadtree.insert]
    split_ifs <;> simp [Quadtree.elems] <;>
      first
        | exact absurd rfl (by assumption)
        | exact (by assumption : False).elim
  | node b c ps ne nw se sw ihne ihnw ihse ihsw =>
    simp only [Quadtree.insert]
    split_ifs <;> simp [Quadtree.elems] <;>
      first
        | exact absurd rfl (by assumption)
        | exact (by assumption : False).elim
        | skip
    · rw [if_pos (by assumption : (ne.insert p).1 = true)] at ihne
      refine List.Perm.trans
        (List.Perm.append_left ps (ihne.append_right _)) ?_
      exact List.perm_middle
    · rw [if_neg (by assumption : ¬ (ne.insert p).1 = true)] at ihne
      rw [if_pos (by assumption : (nw.insert p).1 = true)] at ihnw
      simp only [List.nil_append] at ihne
      refine List.Perm.trans (List.Perm.append_left ps
        (List.Perm.append ihne (ihnw.append_right _))) ?_
      refine List.Perm.trans
        (List.Perm.append_left ps List.perm_middle) ?_
      exact List.perm_middle
    · rw [if_neg (by assumption : ¬ (ne.insert p).1 = true)] at ihne
      rw [if_neg (by assumption : ¬ (nw.insert p).1 = true)] at ihnw
      rw [if_pos (by assumption : (se.insert p).1 = true)] at ihse
      simp only [List.nil_append] at ihne ihnw
      refine List.Perm.trans (List.Perm.append_left ps
        (List.Perm.append ihne (List.Perm.append ihnw
          (ihse.append_right _)))) ?_
      refine List.Perm.trans (List.Perm.append_left ps
        (List.Perm.append_left ne.elems List.perm_middle)) ?_
      refine List.Perm.trans
        (List.Perm.append_left ps List.perm_middle) ?_
      exact List.perm_middle
    · rw [if_neg (by assumption : ¬ (ne.insert p).1 = true)] at ihne
      rw [if_neg (by assumption : ¬ (nw.insert p).1 = true)] at ihnw
      rw [if_neg (by assumption : ¬ (se.insert p).1 = true)] at ihse
      rw [if_pos (by assumption : (sw.insert p).1 = true)] at ihsw
      simp only [List.nil_append] at ihne ihnw ihse
      refine List.Perm.trans (List.Perm.append_left ps
        (List.Perm.append ihne (List.Perm.append ihnw
          (List.Perm.append ihse (by simpa using ihsw))))) ?_
      refine List.Perm.trans (List.Perm.append_left ps
        (List.Perm.append_left ne.elems
          (List.Perm.append_left nw.elems List.perm_middle))) ?_
      refine List.Perm.trans (List.Perm.append_left ps
        (List.Perm.append_left ne.elems List.perm_middle)) ?_
      refine List.Perm.trans
        (List.Perm.append_left ps List.perm_middle) ?_
      exact List.perm_middle
    · rw [if_neg (by assumption : ¬ (ne.insert p).1 = true)] at ihne
      rw [if_neg (by assumption : ¬ (nw.insert p).1 = true)] at ihnw
      rw [if_neg (by assumption : ¬ (se.insert p).1 = true)] at ihse
      rw [if_neg (by assumption : ¬ (sw.insert p).1 = true)] at ihsw
      simp only [List.nil_append] at ihne ihnw ihse ihsw
      exact List.Perm.append_left ps
        (List.Perm.append ihne (List.Perm.append ihnw
          (List.Perm.append ihse ihsw)))

/-- Rectangle inclusion is reflexive. -/
theorem rectWithin_refl (b : Rect) : rectWithin b b := by
  exact ⟨le_refl _, le_refl _, le_refl _, le_refl _⟩

/-- Rectangle inclusion is transitive. -/
theorem rectWithin_trans {a b c : Rect} (h1 : rectWithin a b)
    (h2 : rectWithin b c) : rectWithin a c := by
  obtain ⟨x1, x2, y1, y2⟩ := h1
  obtain ⟨x3, x4, y3, y4⟩ := h2
  exact ⟨by linarith, by linarith, by linarith, by linarith⟩

/-- Each subdivide quadrant lies within its parent rectangle. -/
theorem quadrants_within (b : Rect) (hw : 0 ≤ b.width)
    (hh : 0 ≤ b.height) :
    rectWithin (neRect b) b ∧ rectWithin (nwRect b) b ∧
    rectWithin (seRect b) b ∧ rectWithin (swRect b) b := by
  refine ⟨⟨?_, ?_, ?_, ?_⟩, ⟨?_, ?_, ?_, ?_⟩, ⟨?_, ?_, ?_, ?_⟩,
    ⟨?_, ?_, ?_, ?_⟩⟩ <;>
    simp only [neRect, nwRect, seRect, swRect] <;> linarith

/-- A nonnegative rectangle included in the query range passes the
intersection pruning test. -/
theorem intersect_of_within (b range : Rect) (hw : 0 ≤ b.width)
    (hh : 0 ≤ b.height) (hsub : rectWithin b range) :
    rectIntersect b range = true := by
  obtain ⟨x1, x2, y1, y2⟩ := hsub
  simp only [rectIntersect, Bool.not_eq_true', Bool.or_eq_false_iff,
    decide_eq_false_iff_not, not_lt]
  exact ⟨⟨⟨by linarith, by linarith⟩, by linarith⟩, by linarith⟩

/-- Over a well-formed tree whose boundary lies within the query range, no
node is pruned, so query returns the accumulator followed by every stored
particle whose position is in the range. -/
theorem query_eq_filter (qt : Quadtree) (range : Rect)
    (hwf : qt.WFT) (hsub : rectWithin qt.boundary range) :
    ∀ found, qt.query range found =
      found ++ qt.elems.filter (fun p => particleInRange p range) := by
  induction qt with
  | leaf b c ps =>
    intro found
    have hint : rectIntersect b range = true :=
      intersect_of_within b range hwf.1 hwf.2 hsub
    simp [Quadtree.query, hint, Quadtree.elems]
  | node b c ps ne nw se sw ihne ihnw ihse ihsw =>
    intro found
    obtain ⟨hw, hh, hbne, hbnw, hbse, hbsw, wfne, wfnw, wfse, wfsw⟩ := hwf
    obtain ⟨qne, qnw, qse, qsw⟩ := quadrants_within b hw hh
    have hint : rectIntersect b range = true :=
      intersect_of_within b range hw hh hsub
    simp only [Quadtree.query, hint, Bool.not_true, Bool.false_eq_true,
      if_false]
    rw [ihne wfne (by rw [hbne]; exact rectWithin_trans qne hsub)]
    rw [ihnw wfnw (by rw [hbnw]; exact rectWithin_trans qnw hsub)]
    rw [ihse wfse (by rw [hbse]; exact rectWithin_trans qse hsub)]
    rw [ihsw wfsw (by rw [hbsw]; exact rectWithin_trans qsw hsub)]
    simp [Quadtree.elems, List.filter_append, List.append_assoc]

/-- Strict interior membership implies the half-open containment test of
the tree. -/
theorem contains_of_strict (b : Rect) (p : Particle)
    (h : strictlyInsideR b p) : rectContainsP b p = true := by
  obtain ⟨h1, h2, h3, h4⟩ := h
  simp only [rectContainsP, decide_eq_true_eq]
  exact ⟨le_of_lt h1, h2, le_of_lt h3, h4⟩

/-- particleInRange and contains are the same test. -/
theorem particleInRange_eq_contains (p : Particle) (r : Rect) :
    particleInRange p r = rectContainsP r p := rfl

/-- Inserting a list of particles contained in the root boundary of a
well-formed tree keeps it well-formed, keeps the boundary, and makes the
stored multiset exactly the old elements plus the list. -/
theorem insertAll_spec (ps : List Particle) : ∀ qt : Quadtree, qt.WFT →
    (∀ p ∈ ps, rectContainsP qt.boundary p = true) →
    (insertAll qt ps).WFT ∧ (insertAll qt ps).boundary = qt.boundary ∧
    ((insertAll qt ps).elems).Perm (qt.elems ++ ps) := by
  induction ps with
  | nil =>
    intro qt hwf _
    exact ⟨hwf, rfl, by simp [insertAll]⟩
  | cons p ps ih =>
    intro qt hwf hc
    have hcp := hc p (by simp)
    have hfst := insert_fst_of_contains qt p hwf hcp
    have helems := insert_elems_perm qt p
    rw [if_pos hfst] at helems
    have hwf2 := insert_WFT qt p hwf
    have hbd := insert_boundary qt p
    have hrest : ∀ q ∈ ps,
        rectContainsP ((qt.insert p).2).boundary q = true := by
      intro q hq
      rw [hbd]
      exact hc q (by simp [hq])
    obtain ⟨w1, w2, w3⟩ := ih ((qt.insert p).2) hwf2 hrest
    refine ⟨w1, ?_, ?_⟩
    · rw [show insertAll qt (p :: ps) = insertAll ((qt.insert p).2) ps
        from rfl, w2, hbd]
    · rw [show insertAll qt (p :: ps) = insertAll ((qt.insert p).2) ps
        from rfl]
      refine w3.trans ?_
      refine (helems.append_right ps).trans ?_
      exact List.perm_middle.symm

/-- C5: for every finite set of particles strictly inside the root
rectangle of a fresh quadtree, inserting them all and querying the full
root rectangle returns exactly those particles, as a permutation: no
duplicates, no omissions. -/
theorem c5_quadtree_query (b : Rect) (cap : Nat) (ps : List Particle)
    (hw : 0 ≤ b.width) (hh : 0 ≤ b.height)
    (hin : ∀ p ∈ ps, strictlyInsideR b p) :
    (Quadtree.query (insertAll (Quadtree.leaf b cap []) ps) b []).Perm
      ps := by
  have hwf0 : (Quadtree.leaf b cap []).WFT := ⟨hw, hh⟩
  have hc : ∀ p ∈ ps,
      rectContainsP (Quadtree.leaf b cap []).boundary p = true :=
    fun p hp => contains_of_strict b p (hin p hp)
  obtain ⟨w1, w2, w3⟩ := insertAll_spec ps _ hwf0 hc
  rw [query_eq_filter _ b w1 (by rw [w2]; exact rectWithin_refl b) []]
  simp only [List.nil_append]
  have hfil : (insertAll (Quadtree.leaf b cap []) ps).elems.filter
      (fun p => particleInRange p b) =
      (insertAll (Quadtree.leaf b cap []) ps).elems := by
    rw [List.filter_eq_self]
    intro q hq
    have hqmem : q ∈ ps := by
      have := (w3.mem_iff).mp hq
      simpa [Quadtree.elems] using this
    rw [particleInRange_eq_contains]
    exact contains_of_strict b q (hin q hqmem)
  rw [hfil]
  refine w3.trans ?_
  simp [Quadtree.elems]

unseal Rat.add Rat.mul Rat.sub Rat.inv Rat.ofScientific in
/-- Witness for C5: six particles in the unit square, one more than the
node capacity, so a subdivision occurs. -/
theorem c5_quadtree_query_witness :
    (Quadtree.query (insertAll (Quadtree.leaf c5rect 4 []) c5particles)
      c5rect []).Perm c5particles :=
  c5_quadtree_query c5rect 4 c5particles (by norm_num [c5rect])
    (by norm_num [c5rect]) (by
      intro p hp
      fin_cases hp <;> norm_num [strictlyInsideR, c5rect])
